import Mathlib

/-!
Shallow embedding of the decision core of the prometheus-vault repository:
the Risk Manager (`src/core/risk-manager.ts`), the Strategy Engine
(`src/core/strategy-engine.ts`) and the Decide phase of the Vault Engine
(`src/core/vault-engine.ts`).

Modelling conventions:
- JavaScript numbers (and `decimal.js` values) are modelled as exact
  rationals `ℚ`; `Infinity` (which arises only for break-even horizons)
  is modelled by the two-constructor type `ERat`.
- Human-readable message strings are modelled by small inductive types
  that record which rule produced the message and the data interpolated
  into it; purely presentational fields (urls, notes, formatted labels)
  are omitted.
- The current UTC day key (`new Date().toISOString().slice(0, 10)`) is an
  ambient input of the Risk Manager; it is passed explicitly as a `Nat`
  parameter `today`.
- The mutable fields of the `RiskManager` class (`dailyPnL`,
  `circuitBreakerTripped`, `circuitBreakerReason`) form the explicit
  state `RiskState`, threaded through every call.
-/

-- Restore kernel reducibility of the basic rational operations (they are
-- irreducible by default), so that concrete scenarios can be settled by
-- `decide`.
attribute [local semireducible] Rat.mul Rat.add Rat.sub Rat.inv

namespace PrometheusVault

/-- Value of a JavaScript number that is either finite or `Infinity`
(`Infinity` arises only as a break-even horizon). -/
inductive ERat where
  | fin (q : ℚ)
  | inf
deriving DecidableEq

/-- Comparison `x < bound` on a possibly-infinite value; `Infinity < b` is false. -/
def ERat.ltQ : ERat → ℚ → Bool
  | .fin x, b => x < b
  | .inf, _ => false

/-- Comparison `x > bound` on a possibly-infinite value; `Infinity > b` is true. -/
def ERat.gtQ : ERat → ℚ → Bool
  | .fin x, b => b < x
  | .inf, _ => true

/-- Comparison `x ≤ bound` on a possibly-infinite value; `Infinity ≤ b` is false. -/
def ERat.leQ : ERat → ℚ → Bool
  | .fin x, b => x ≤ b
  | .inf, _ => false

/-- JavaScript truthiness of an optional number: absent and `0` are falsy. -/
def truthyQ : Option ℚ → Bool
  | none => false
  | some x => x != 0

/-- JavaScript truthiness of an optional possibly-infinite number. -/
def truthyE : Option ERat → Bool
  | none => false
  | some (.fin x) => x != 0
  | some .inf => true

-- ─── Data model (src/types.ts) ───────────────────────────────────

/-- Multiply (leveraged staking) position; fields not read by the decision
core (mints, amounts, addresses) are omitted. -/
structure MultiplyPosition where
  collateralToken : String
  netValueUsd : ℚ
  leverage : ℚ
  ltv : ℚ
  netApy : ℚ
deriving DecidableEq

/-- Kind tag of a yield opportunity. -/
inductive OppType where
  | lending
  | leverage
  | staking
deriving DecidableEq

/-- Risk tier of a yield opportunity. -/
inductive RiskTier where
  | low
  | medium
  | high
deriving DecidableEq

/-- Generic yield opportunity; presentational fields (url, notes, apy
breakdown, tvl) are omitted. -/
structure YieldOpportunity where
  protocol : String
  pool : String
  type : OppType
  token : String
  apy : ℚ
  risk : RiskTier
deriving DecidableEq

/-- Leveraged (Multiply) opportunity; mint/address fields and the
precomputed 2x/3x projections (unused by the engine) are omitted. -/
structure MultiplyOpportunity where
  collateral : String
  debt : String
  market : String
  stakingApy : ℚ
  borrowApy : ℚ
  spread : ℚ
  maxLtv : ℚ
deriving DecidableEq

/-- Snapshot of the vault state; K-Lend positions are not read by the
decision core and are omitted, the timestamp is replaced by the explicit
`today` parameter of the Risk Manager calls. -/
structure VaultSnapshot where
  totalValueUsd : ℚ
  solBalance : ℚ
  multiplyPositions : List MultiplyPosition
  blendedApy : ℚ
  solPrice : ℚ
deriving DecidableEq

/-- Action tag of a decision. -/
inductive DecisionAction where
  | hold
  | depositKlend
  | withdrawKlend
  | openMultiply
  | closeMultiply
  | adjustLeverage
  | swap
  | rebalance
deriving DecidableEq

/-- Risk-relevant entries of the free-form `params` bag attached to an
action; the entries only used for execution or display (pool, token,
market and obligation addresses) are omitted. -/
structure ActionParams where
  amountUsd : Option ℚ := none
  leverage : Option ℚ := none
  slippageBps : Option ℚ := none
  targetApy : Option ℚ := none
  breakEvenDays : Option ERat := none
deriving DecidableEq

/-- Configuration of the Risk Manager. -/
structure RiskConfig where
  maxPositionPct : ℚ
  maxLeverage : ℚ
  maxLtv : ℚ
  gasReserveSol : ℚ
  maxSlippageBps : ℚ
  dailyLossCircuitBreakerPct : ℚ
  minApyImprovementPct : ℚ
  maxBreakEvenDays : ℚ
deriving DecidableEq

/-- Configuration of the Multiply strategy (fields read by the engine). -/
structure MultiplyConfig where
  maxLeverage : ℚ
  minSpreadPct : ℚ
deriving DecidableEq

-- ─── Risk Manager state (src/core/risk-manager.ts) ───────────────

/-- Data interpolated into the circuit-breaker trip message
`Daily loss X% exceeds Y% threshold`. -/
structure BreakerReason where
  lossPct : ℚ
  thresholdPct : ℚ
deriving DecidableEq

/-- Daily profit-and-loss tracking record. -/
structure DailyPnL where
  date : Nat
  startValueUsd : ℚ
  currentValueUsd : ℚ
  lossPct : ℚ
deriving DecidableEq

/-- Mutable state of the `RiskManager` class; the empty reason string is
modelled by `none`. -/
structure RiskState where
  dailyPnL : Option DailyPnL
  circuitBreakerTripped : Bool
  circuitBreakerReason : Option BreakerReason
deriving DecidableEq

/-- State of a freshly constructed `RiskManager`. -/
def RiskState.initial : RiskState :=
  { dailyPnL := none, circuitBreakerTripped := false, circuitBreakerReason := none }

/-- Warning messages, identified by the rule that raised them. -/
inductive RiskWarning where
  | positionSizeNear
  | leverageNear
  | ltvNear (token : String)
  | apyHigh
  | breakEvenLong
deriving DecidableEq

/-- Hard-block messages, identified by the rule that raised them. -/
inductive RiskBlock where
  | breakerActive (r : Option BreakerReason)
  | gasReserve
  | positionSize
  | leverageTooHigh
  | ltvTooHigh (token : String)
  | slippage
  | dailyLoss (r : Option BreakerReason)
deriving DecidableEq

/-- Shape of the `reason` string of a risk assessment. -/
inductive AssessReason where
  | blockedByBreaker (r : Option BreakerReason)
  | blocked (blocks : List RiskBlock)
  | approvedWithWarnings (warnings : List RiskWarning)
  | approvedClean
deriving DecidableEq

/-- Result of `RiskManager.assessAction`. -/
structure RiskAssessment where
  approved : Bool
  riskScore : ℚ
  reason : AssessReason
  warnings : List RiskWarning
  blocks : List RiskBlock
deriving DecidableEq

-- ─── Daily P&L bookkeeping ──────────────────────────────────────

/-- Private helper `updateDailyPnL`: on the first observation of a new day
key the record is reset to the snapshot value and the breaker is cleared;
on the same day the current value and loss percentage are updated. -/
def updateDailyPnL (today : Nat) (snap : VaultSnapshot) (s : RiskState) : RiskState :=
  let fresh : RiskState :=
    { dailyPnL := some { date := today, startValueUsd := snap.totalValueUsd,
                         currentValueUsd := snap.totalValueUsd, lossPct := 0 },
      circuitBreakerTripped := false,
      circuitBreakerReason := if s.circuitBreakerTripped then none else s.circuitBreakerReason }
  match s.dailyPnL with
  | none => fresh
  | some p =>
    if p.date = today then
      let cur := snap.totalValueUsd
      let change := cur - p.startValueUsd
      let loss := if 0 < p.startValueUsd then -(change / p.startValueUsd) * 100 else 0
      { s with dailyPnL := some { p with currentValueUsd := cur, lossPct := loss } }
    else fresh

/-- Private helper `tripCircuitBreaker`; tripping an already tripped
breaker is a no-op (the original reason is kept). -/
def tripCircuitBreaker (r : BreakerReason) (s : RiskState) : RiskState :=
  if s.circuitBreakerTripped then s
  else { s with circuitBreakerTripped := true, circuitBreakerReason := some r }

/-- Manual operator override `resetCircuitBreaker`. -/
def resetCircuitBreaker (s : RiskState) : RiskState :=
  { s with circuitBreakerTripped := false, circuitBreakerReason := none }

-- ─── Individual gating rules of assessAction ────────────────────

/-- Gas-reserve rule: blocks (+30) when the SOL balance is below the
configured reserve. -/
def gasCheck (cfg : RiskConfig) (snap : VaultSnapshot) : List RiskBlock × ℚ :=
  if snap.solBalance < cfg.gasReserveSol then ([.gasReserve], 30) else ([], 0)

/-- Position-size rule: applies only when `params.amountUsd` is truthy and
the portfolio value is positive; blocks (+25) above the cap, warns (+10)
above 80 percent of it. -/
def positionSizeCheck (cfg : RiskConfig) (snap : VaultSnapshot) (p : ActionParams) :
    List RiskWarning × List RiskBlock × ℚ :=
  if truthyQ p.amountUsd ∧ 0 < snap.totalValueUsd then
    let amt := p.amountUsd.getD 0
    let pct := amt / snap.totalValueUsd
    if pct > cfg.maxPositionPct then ([], [.positionSize], 25)
    else if pct > cfg.maxPositionPct * (8 / 10) then ([.positionSizeNear], [], 10)
    else ([], [], 0)
  else ([], [], 0)

/-- Leverage rule: only for `open_multiply` and `adjust_leverage`; a falsy
`params.leverage` defaults to 1; blocks (+30) above the cap, warns (+15)
above 80 percent of it. -/
def leverageCheck (cfg : RiskConfig) (action : DecisionAction) (p : ActionParams) :
    List RiskWarning × List RiskBlock × ℚ :=
  if action = .openMultiply ∨ action = .adjustLeverage then
    let target := match p.leverage with
      | some x => if x = 0 then 1 else x
      | none => 1
    if target > cfg.maxLeverage then ([], [.leverageTooHigh], 30)
    else if target > cfg.maxLeverage * (8 / 10) then ([.leverageNear], [], 15)
    else ([], [], 0)
  else ([], [], 0)

/-- Loan-to-value rule for one open Multiply position: blocks (+40) above
the configured max, warns (+20) above 90 percent of it. -/
def ltvCheckPos (cfg : RiskConfig) (pos : MultiplyPosition) :
    List RiskWarning × List RiskBlock × ℚ :=
  if pos.ltv > cfg.maxLtv then ([], [.ltvTooHigh pos.collateralToken], 40)
  else if pos.ltv > cfg.maxLtv * (9 / 10) then ([.ltvNear pos.collateralToken], [], 20)
  else ([], [], 0)

/-- Loan-to-value rule over all open Multiply positions, in order. -/
def ltvChecks (cfg : RiskConfig) (positions : List MultiplyPosition) :
    List RiskWarning × List RiskBlock × ℚ :=
  positions.foldr
    (fun pos acc =>
      let r := ltvCheckPos cfg pos
      (r.1 ++ acc.1, r.2.1 ++ acc.2.1, r.2.2 + acc.2.2))
    ([], [], 0)

/-- Slippage rule: applies when `params.slippageBps` is truthy; blocks
(+20) above the configured cap. -/
def slippageCheck (cfg : RiskConfig) (p : ActionParams) : List RiskBlock × ℚ :=
  if truthyQ p.slippageBps then
    if p.slippageBps.getD 0 > cfg.maxSlippageBps then ([.slippage], 20) else ([], 0)
  else ([], 0)

/-- APY sanity rule: warns (+15) when a truthy target APY exceeds 100. -/
def apySanityCheck (p : ActionParams) : List RiskWarning × ℚ :=
  if truthyQ p.targetApy ∧ p.targetApy.getD 0 > 100 then ([.apyHigh], 15) else ([], 0)

/-- Break-even rule: warns (+10) when a truthy break-even horizon exceeds
the configured maximum. -/
def breakEvenCheck (cfg : RiskConfig) (p : ActionParams) : List RiskWarning × ℚ :=
  if truthyE p.breakEvenDays ∧ (p.breakEvenDays.getD (.fin 0)).gtQ cfg.maxBreakEvenDays then
    ([.breakEvenLong], 10)
  else ([], 0)

/-- Warnings, blocks and accumulated risk score of all the stateless rules
of `assessAction`, in program order (every rule other than the tripped
breaker early return and the daily P&L rule). -/
def pureChecks (cfg : RiskConfig) (action : DecisionAction) (snap : VaultSnapshot)
    (p : ActionParams) : List RiskWarning × List RiskBlock × ℚ :=
  let gas := gasCheck cfg snap
  let pos := positionSizeCheck cfg snap p
  let lev := leverageCheck cfg action p
  let ltv := ltvChecks cfg snap.multiplyPositions
  let slip := slippageCheck cfg p
  let apy := apySanityCheck p
  let be := breakEvenCheck cfg p
  (pos.1 ++ lev.1 ++ ltv.1 ++ apy.1 ++ be.1,
   gas.1 ++ pos.2.1 ++ lev.2.1 ++ ltv.2.1 ++ slip.1,
   gas.2 + pos.2.2 + lev.2.2 + ltv.2.2 + slip.2 + apy.2 + be.2)

/-- Main gate `RiskManager.assessAction`: the tripped-breaker early return,
then the stateless rules, then the daily-loss circuit-breaker rule, then
the final verdict (approved iff no blocks, score capped at 100). -/
def assessAction (today : Nat) (cfg : RiskConfig) (action : DecisionAction)
    (snap : VaultSnapshot) (p : ActionParams) (s : RiskState) :
    RiskAssessment × RiskState :=
  if s.circuitBreakerTripped ∧ action ≠ .hold then
    ({ approved := false, riskScore := 100,
       reason := .blockedByBreaker s.circuitBreakerReason,
       warnings := [], blocks := [.breakerActive s.circuitBreakerReason] }, s)
  else
    let checks := pureChecks cfg action snap p
    let warnings := checks.1
    let s1 := updateDailyPnL today snap s
    let dailyTrips : Bool :=
      match s1.dailyPnL with
      | some pnl => pnl.lossPct > cfg.dailyLossCircuitBreakerPct
      | none => false
    if dailyTrips then
      let pnl := s1.dailyPnL.getD { date := today, startValueUsd := 0,
                                    currentValueUsd := 0, lossPct := 0 }
      let s2 := tripCircuitBreaker
        { lossPct := pnl.lossPct, thresholdPct := cfg.dailyLossCircuitBreakerPct } s1
      let blocks := checks.2.1 ++ [.dailyLoss s2.circuitBreakerReason]
      ({ approved := false, riskScore := min 100 100,
         reason := .blocked blocks, warnings := warnings, blocks := blocks }, s2)
    else
      let blocks := checks.2.1
      let approved := blocks.isEmpty
      ({ approved := approved, riskScore := min 100 checks.2.2,
         reason :=
           if approved then
             if warnings.isEmpty then .approvedClean else .approvedWithWarnings warnings
           else .blocked blocks,
         warnings := warnings, blocks := blocks }, s1)

-- ─── Health report (RiskManager.getHealthStatus) ────────────────

/-- Identity of a health check. -/
inductive CheckName where
  | gasReserve
  | positionLtv (token : String)
  | dailyPnL
  | portfolioValue
deriving DecidableEq

/-- Severity levels of a health check. -/
inductive Severity where
  | info
  | warning
  | critical
deriving DecidableEq

/-- Single health-check result; formatted value/threshold strings omitted. -/
structure HealthCheck where
  name : CheckName
  passed : Bool
  severity : Severity
deriving DecidableEq

/-- Traffic-light health level. -/
inductive TrafficLight where
  | green
  | yellow
  | red
deriving DecidableEq

/-- Health report returned by `getHealthStatus`; the summary string is
omitted. -/
structure HealthStatus where
  status : TrafficLight
  checks : List HealthCheck
  circuitBreakerActive : Bool
deriving DecidableEq

/-- Update of the running worst severity, as performed after each check. -/
def bumpWorst (w : Severity) : Severity → Severity
  | .critical => .critical
  | .warning => if w = .critical then w else .warning
  | .info => w

/-- Health report `RiskManager.getHealthStatus`: gas reserve, one LTV check
per Multiply position, the daily P&L check (after lazily updating the
daily record) and an informational portfolio-value check. -/
def getHealthStatus (today : Nat) (cfg : RiskConfig) (snap : VaultSnapshot)
    (s : RiskState) : HealthStatus × RiskState :=
  let gasOk := snap.solBalance ≥ cfg.gasReserveSol
  let gasCheckRes : HealthCheck :=
    { name := .gasReserve, passed := gasOk,
      severity := if gasOk then .info else .critical }
  let ltvCheckRes : MultiplyPosition → HealthCheck := fun pos =>
    let ltvPct := pos.ltv * 100
    let maxPct := cfg.maxLtv * 100
    { name := .positionLtv pos.collateralToken, passed := ltvPct < maxPct,
      severity :=
        if ltvPct > maxPct then .critical
        else if ltvPct > maxPct * (9 / 10) then .warning
        else .info }
  let s1 := updateDailyPnL today snap s
  let dailyChecks : List HealthCheck :=
    match s1.dailyPnL with
    | some pnl =>
      let lossOk := pnl.lossPct < cfg.dailyLossCircuitBreakerPct
      [{ name := .dailyPnL, passed := lossOk,
         severity := if lossOk then .info else .critical }]
    | none => []
  let valueCheck : HealthCheck :=
    { name := .portfolioValue, passed := true, severity := .info }
  let checks := gasCheckRes :: (snap.multiplyPositions.map ltvCheckRes)
    ++ dailyChecks ++ [valueCheck]
  let worst := (checks.map (·.severity)).foldl bumpWorst .info
  let status : TrafficLight :=
    if worst = .critical then .red else if worst = .warning then .yellow else .green
  ({ status := status, checks := checks,
     circuitBreakerActive := s1.circuitBreakerTripped }, s1)

-- ─── Rate validation and switch cost ────────────────────────────

/-- Protocol kind passed to `validateRate`. -/
inductive RateKind where
  | lending
  | multiply
deriving DecidableEq

/-- Sanity check `RiskManager.validateRate`: rejects yields below -5
percent or above 200 percent, and Multiply yields above 50 percent. -/
def validateRate (apy : ℚ) (protocol : RateKind) : Bool :=
  if apy < -5 then false
  else if apy > 200 then false
  else if protocol = .multiply ∧ apy > 50 then false
  else true

/-- Result of `RiskManager.calculateSwitchCost`. -/
structure SwitchCost where
  costSol : ℚ
  breakEvenDays : ERat
  profitable : Bool
deriving DecidableEq

/-- Switch-cost model `RiskManager.calculateSwitchCost`: fixed
per-transaction fee of (5 / 10000) SOL, 0.3 percent slippage on the moved
value, break-even days against the daily yield improvement (infinite when
the improvement is not positive), and the two-sided profitability test. -/
def calculateSwitchCost (cfg : RiskConfig) (currentApy targetApy valueSol txCount : ℚ) :
    SwitchCost :=
  let txCostSol := txCount * (5 / 10000)
  let slippageCostSol := valueSol * (3 / 1000)
  let totalCostSol := txCostSol + slippageCostSol
  let apyDiff := targetApy - currentApy
  let dailyImprovement := apyDiff / 100 * valueSol / 365
  let breakEvenDays : ERat :=
    if 0 < dailyImprovement then .fin (totalCostSol / dailyImprovement) else .inf
  { costSol := totalCostSol,
    breakEvenDays := breakEvenDays,
    profitable := breakEvenDays.ltQ cfg.maxBreakEvenDays
      ∧ apyDiff > cfg.minApyImprovementPct }

-- ─── Strategy Engine (src/core/strategy-engine.ts) ──────────────

/-- Risk tolerance tier. -/
inductive RiskTolerance where
  | conservative
  | balanced
  | aggressive
deriving DecidableEq

/-- Entry of the `RISK_WEIGHTS` table. -/
structure RiskWeights where
  maxRiskScore : ℚ
  minSharpe : ℚ
  leveragePref : ℚ
deriving DecidableEq

/-- Table `RISK_WEIGHTS` mapping a risk tolerance to its parameters. -/
def riskWeights : RiskTolerance → RiskWeights
  | .conservative => { maxRiskScore := 30, minSharpe := (5 / 10), leveragePref := (3 / 2) }
  | .balanced => { maxRiskScore := 50, minSharpe := (3 / 10), leveragePref := 2 }
  | .aggressive => { maxRiskScore := 70, minSharpe := (1 / 10), leveragePref := 3 }

/-- Identifier of a strategy candidate, with the interpolated tokens kept
and lowercasing dropped. -/
inductive CandidateId where
  | hold
  | klend (token : String)
  | multiply (collateral market : String)
  | closeMultiply (token : String)
deriving DecidableEq

/-- Shape of the reasoning string attached to a candidate. -/
inductive CandReason where
  | holdCurrent (apy : ℚ)
  | klendDeposit (pool : String) (apy : ℚ) (breakEven : ERat) (profitable : Bool)
  | openMultiply (collateral debt market : String) (leverage netApy : ℚ)
  | closeCollapsed (token : String) (netApy : ℚ)
deriving DecidableEq

/-- Strategy candidate produced by the engine. -/
structure StrategyCandidate where
  id : CandidateId
  action : DecisionAction
  netApy : ℚ
  riskScore : ℚ
  sharpeScore : ℚ
  breakEvenDays : ERat
  reasoning : CandReason
  params : ActionParams
  riskAssessment : Option RiskAssessment
deriving DecidableEq

/-- Market-condition classification. -/
inductive MarketCondition where
  | calm
  | volatile
  | uncertain
deriving DecidableEq

/-- Recommendation returned by `StrategyEngine.evaluate`; the Risk Manager
state after the call is returned alongside by the embedding. -/
structure StrategyRecommendation where
  bestStrategy : StrategyCandidate
  alternatives : List StrategyCandidate
  currentApy : ℚ
  marketCondition : MarketCondition
deriving DecidableEq

/-- Strategy 1: the hold candidate, generated first, with net yield equal
to the current blended yield and risk score 0. -/
def holdCandidate (currentApy : ℚ) : StrategyCandidate :=
  { id := .hold, action := .hold, netApy := currentApy, riskScore := 0,
    sharpeScore := if currentApy > 0 then currentApy / 1 else 0,
    breakEvenDays := .fin 0, reasoning := .holdCurrent currentApy,
    params := {}, riskAssessment := none }

/-- Tiered risk score of a simple lending opportunity. -/
def lendingRiskScore : RiskTier → ℚ
  | .low => 10
  | .medium => 30
  | .high => 60

/-- Strategy 2: K-Lend supply candidates, from the top 3 non-high-risk
lending opportunities by advertised APY, each passing rate validation. -/
def klendCandidates (cfg : RiskConfig) (currentApy portfolioValueSol : ℚ)
    (opportunities : List YieldOpportunity) : List StrategyCandidate :=
  let lendingOpps :=
    ((opportunities.filter fun o => o.type == .lending && o.risk != .high)).insertionSort
      fun a b => b.apy ≤ a.apy
  (lendingOpps.take 3).filterMap fun opp =>
    if ¬ validateRate opp.apy .lending then none
    else
      let switchCost := calculateSwitchCost cfg currentApy opp.apy portfolioValueSol 2
      let riskScore := lendingRiskScore opp.risk
      some
        { id := .klend opp.token, action := .depositKlend,
          netApy := if switchCost.profitable then opp.apy else currentApy,
          riskScore := riskScore,
          sharpeScore := if riskScore > 0 then (opp.apy - currentApy) / (riskScore / 100) else 0,
          breakEvenDays := switchCost.breakEvenDays,
          reasoning := .klendDeposit opp.pool opp.apy switchCost.breakEvenDays
            switchCost.profitable,
          params := { targetApy := some opp.apy,
                      breakEvenDays := some switchCost.breakEvenDays },
          riskAssessment := none }

/-- Risk score of a Multiply entry at a given leverage. -/
def multiplyRiskScore (leverage : ℚ) : ℚ :=
  25 + (leverage - 1) * 15

/-- Strategy 3: Multiply entry candidates, from the first 5 leveraged
opportunities of the given list (the scanner supplies the list sorted by
spread descending), skipping spreads below the configured minimum and
rates failing validation. -/
def multiplyCandidates (cfg : RiskConfig) (mcfg : MultiplyConfig) (tol : RiskTolerance)
    (currentApy portfolioValueSol : ℚ) (multiplyOpps : List MultiplyOpportunity) :
    List StrategyCandidate :=
  (multiplyOpps.take 5).filterMap fun opp =>
    if opp.spread < mcfg.minSpreadPct then none
    else
      let targetLeverage := min (riskWeights tol).leveragePref mcfg.maxLeverage
      let netApy := opp.stakingApy * targetLeverage - opp.borrowApy * (targetLeverage - 1)
      if ¬ validateRate netApy .multiply then none
      else
        let switchCost := calculateSwitchCost cfg currentApy netApy portfolioValueSol 4
        let riskScore := multiplyRiskScore targetLeverage
        some
          { id := .multiply opp.collateral opp.market, action := .openMultiply,
            netApy := if switchCost.profitable then netApy else currentApy,
            riskScore := riskScore,
            sharpeScore := if riskScore > 0 then (netApy - currentApy) / (riskScore / 100) else 0,
            breakEvenDays := switchCost.breakEvenDays,
            reasoning := .openMultiply opp.collateral opp.debt opp.market
              targetLeverage netApy,
            params := { leverage := some targetLeverage, targetApy := some netApy },
            riskAssessment := none }

/-- Strategy 4: exit candidates for every open Multiply position whose net
APY has fallen below 1 percent, with fixed risk score 5 and fixed
risk-adjusted score 50. -/
def closeCandidates (currentApy : ℚ) (positions : List MultiplyPosition) :
    List StrategyCandidate :=
  positions.filterMap fun pos =>
    if pos.netApy < 1 then
      some
        { id := .closeMultiply pos.collateralToken, action := .closeMultiply,
          netApy := currentApy, riskScore := 5, sharpeScore := 50,
          breakEvenDays := .fin 0,
          reasoning := .closeCollapsed pos.collateralToken pos.netApy,
          params := {}, riskAssessment := none }
    else none

/-- Candidate generation of `evaluate`, in deterministic order: hold, then
K-Lend supply, then Multiply entries, then Multiply exits. -/
def generateCandidates (cfg : RiskConfig) (mcfg : MultiplyConfig) (tol : RiskTolerance)
    (snap : VaultSnapshot) (opportunities : List YieldOpportunity)
    (multiplyOpps : List MultiplyOpportunity) : List StrategyCandidate :=
  let currentApy := snap.blendedApy
  let portfolioValueSol := snap.totalValueUsd / snap.solPrice
  holdCandidate currentApy
    :: (klendCandidates cfg currentApy portfolioValueSol opportunities
        ++ multiplyCandidates cfg mcfg tol currentApy portfolioValueSol multiplyOpps
        ++ closeCandidates currentApy snap.multiplyPositions)

/-- First pass of the risk filter: run the risk assessment on every
candidate in order, threading the Risk Manager state, and attach the
verdict to the candidate. -/
def assessAll (today : Nat) (cfg : RiskConfig) (snap : VaultSnapshot) :
    List StrategyCandidate → RiskState → List StrategyCandidate × RiskState
  | [], s => ([], s)
  | c :: cs, s =>
    let r := assessAction today cfg c.action snap c.params s
    let rest := assessAll today cfg snap cs r.2
    ({ c with riskAssessment := some r.1 } :: rest.1, rest.2)

/-- Filter predicate of `evaluate`: a non-hold candidate is dropped when
its risk score exceeds the tolerance ceiling or when its risk assessment
is unapproved; hold candidates are exempt from both tests. -/
def keepCandidate (maxRiskScore : ℚ) (c : StrategyCandidate) : Bool :=
  let unapproved : Bool :=
    match c.riskAssessment with
    | some a => ¬ a.approved
    | none => false
  if c.riskScore > maxRiskScore ∧ c.action ≠ .hold then false
  else if unapproved ∧ c.action ≠ .hold then false
  else true

/-- Stable descending sort by risk-adjusted (sharpe) score, as performed by
the JavaScript stable `Array.prototype.sort` with comparator
`b.sharpeScore - a.sharpeScore`. -/
def rankCandidates (l : List StrategyCandidate) : List StrategyCandidate :=
  l.insertionSort fun a b => b.sharpeScore ≤ a.sharpeScore

/-- Encoding of the comparison `Math.sqrt v > t` for `v ≥ 0` without square
roots: true iff `t` is negative or `t ^ 2 < v`. -/
def sqrtGtQ (v t : ℚ) : Bool :=
  if t < 0 then true else t ^ 2 < v

/-- Yields of the first 10 opportunities of the list (the scanner supplies
the list sorted by APY descending, so these are the top 10 yields). -/
def top10Apys (opportunities : List YieldOpportunity) : List ℚ :=
  (opportunities.take 10).map (·.apy)

/-- Mean of the top-10 yields. -/
def top10Mean (opportunities : List YieldOpportunity) : ℚ :=
  (top10Apys opportunities).sum / ((top10Apys opportunities).length : ℚ)

/-- Population variance of the top-10 yields (the code compares its square
root, the standard deviation, against multiples of the mean). -/
def top10Variance (opportunities : List YieldOpportunity) : ℚ :=
  ((top10Apys opportunities).map fun apy => (apy - top10Mean opportunities) ^ 2).sum
    / ((top10Apys opportunities).length : ℚ)

/-- Average Multiply spread, 0 when there are no Multiply opportunities. -/
def avgSpread (multiplyOpps : List MultiplyOpportunity) : ℚ :=
  if multiplyOpps.length > 0 then
    ((multiplyOpps.map (·.spread)).sum) / (multiplyOpps.length : ℚ)
  else 0

/-- Classifier `StrategyEngine.assessMarketCondition`: fewer than 3
opportunities is uncertain; volatile when the standard deviation exceeds
half the mean or the average spread is compressed below 1; uncertain when
the standard deviation exceeds 0.3 times the mean; calm otherwise. -/
def assessMarketCondition (opportunities : List YieldOpportunity)
    (multiplyOpps : List MultiplyOpportunity) : MarketCondition :=
  if opportunities.length < 3 then .uncertain
  else if sqrtGtQ (top10Variance opportunities) (top10Mean opportunities * (5 / 10))
      || avgSpread multiplyOpps < 1 then .volatile
  else if sqrtGtQ (top10Variance opportunities) (top10Mean opportunities * (3 / 10)) then
    .uncertain
  else .calm

/-- Candidates of `evaluate` after the risk-assessment pass. -/
def evaluateAssessed (today : Nat) (cfg : RiskConfig) (mcfg : MultiplyConfig)
    (tol : RiskTolerance) (snap : VaultSnapshot)
    (opportunities : List YieldOpportunity) (multiplyOpps : List MultiplyOpportunity)
    (s : RiskState) : List StrategyCandidate × RiskState :=
  assessAll today cfg snap (generateCandidates cfg mcfg tol snap opportunities multiplyOpps) s

/-- Surviving (valid) candidates of `evaluate`. -/
def evaluateValid (today : Nat) (cfg : RiskConfig) (mcfg : MultiplyConfig)
    (tol : RiskTolerance) (snap : VaultSnapshot)
    (opportunities : List YieldOpportunity) (multiplyOpps : List MultiplyOpportunity)
    (s : RiskState) : List StrategyCandidate :=
  (evaluateAssessed today cfg mcfg tol snap opportunities multiplyOpps s).1.filter
    (keepCandidate (riskWeights tol).maxRiskScore)

/-- Core decision function `StrategyEngine.evaluate`: generate candidates,
risk-filter them, rank the survivors by sharpe score and return the top
candidate plus the rest as alternatives, together with the updated Risk
Manager state. -/
def evaluate (today : Nat) (cfg : RiskConfig) (mcfg : MultiplyConfig)
    (tol : RiskTolerance) (snap : VaultSnapshot)
    (opportunities : List YieldOpportunity) (multiplyOpps : List MultiplyOpportunity)
    (s : RiskState) : StrategyRecommendation × RiskState :=
  let currentApy := snap.blendedApy
  let assessed := evaluateAssessed today cfg mcfg tol snap opportunities multiplyOpps s
  let ranked :=
    rankCandidates (evaluateValid today cfg mcfg tol snap opportunities multiplyOpps s)
  let bestStrategy := ranked.headD
    (((assessed.1.find? fun c => c.action == .hold)).getD (holdCandidate currentApy))
  ({ bestStrategy := bestStrategy, alternatives := ranked.tail,
     currentApy := currentApy,
     marketCondition := assessMarketCondition opportunities multiplyOpps },
   assessed.2)

-- ─── Vault Engine, Decide phase (src/core/vault-engine.ts) ──────

/-- Inputs recorded on a Decision. -/
structure DecisionInputs where
  currentApy : ℚ
  targetApy : ℚ
  riskScore : ℚ
  marketCondition : MarketCondition
deriving DecidableEq

/-- Decision record built by `StrategyEngine.createDecision`; the random
id and the wall-clock timestamp are ambient nondeterminism and omitted. -/
structure Decision where
  action : DecisionAction
  reasoning : CandReason
  inputs : DecisionInputs
  params : ActionParams
deriving DecidableEq

/-- Shape of the reason string of the Decide phase. -/
inductive DecideReason where
  | breakerActiveHold
  | healthRedHold
  | holdRecommended (r : CandReason)
  | riskManagerBlocked (r : AssessReason)
  | dryRunWouldExecute (a : DecisionAction)
  | actRecommended (r : CandReason)
deriving DecidableEq

/-- Result of the Decide phase. -/
structure DecideResult where
  decision : Decision
  shouldAct : Bool
  reason : DecideReason
deriving DecidableEq

/-- Inputs of the Decide phase coming from the Orient phase. -/
structure OrientResult where
  recommendation : StrategyRecommendation
  health : HealthStatus
deriving DecidableEq

/-- Record built by `StrategyEngine.createDecision` from a candidate. -/
def createDecision (candidate : StrategyCandidate) (currentApy : ℚ)
    (condition : MarketCondition) : Decision :=
  { action := candidate.action, reasoning := candidate.reasoning,
    inputs := { currentApy := currentApy, targetApy := candidate.netApy,
                riskScore := candidate.riskScore, marketCondition := condition },
    params := candidate.params }

/-- Decide phase `VaultEngine.decide`: build the Decision record from the
best recommendation, apply the override precedence in order (circuit
breaker, red health, hold recommendation, unapproved risk verdict, dry
run, act), and log the Decision record unconditionally. The second
component of the result is the list of records handed to the decision
logger during the phase. -/
def decidePhase (dryRun : Bool) (oriented : OrientResult) : DecideResult × List Decision :=
  let best := oriented.recommendation.bestStrategy
  let decision := createDecision best oriented.recommendation.currentApy
    oriented.recommendation.marketCondition
  let unapproved : Bool :=
    match best.riskAssessment with
    | some a => ¬ a.approved
    | none => false
  let verdict : Bool × DecideReason :=
    if oriented.health.circuitBreakerActive then (false, .breakerActiveHold)
    else if oriented.health.status = .red then (false, .healthRedHold)
    else if best.action = .hold then (false, .holdRecommended best.reasoning)
    else if unapproved then
      (false, .riskManagerBlocked ((best.riskAssessment.getD
        { approved := false, riskScore := 0, reason := .approvedClean,
          warnings := [], blocks := [] }).reason))
    else if dryRun then (false, .dryRunWouldExecute best.action)
    else (true, .actRecommended best.reasoning)
  ({ decision := decision, shouldAct := verdict.1, reason := verdict.2 }, [decision])

-- ─── Concrete example scenario (used by witnesses and counterexamples) ──

/-- Example risk configuration with typical values. -/
def exCfg : RiskConfig :=
  { maxPositionPct := (25 / 100), maxLeverage := 3, maxLtv := (65 / 100), gasReserveSol := (5 / 100),
    maxSlippageBps := 100, dailyLossCircuitBreakerPct := 5,
    minApyImprovementPct := (5 / 10), maxBreakEvenDays := 30 }

/-- Example Multiply configuration. -/
def exMultiplyCfg : MultiplyConfig := { maxLeverage := 3, minSpreadPct := 2 }

/-- Example snapshot: healthy gas reserve, no open positions, 2 percent
blended APY. -/
def exSnapshot : VaultSnapshot :=
  { totalValueUsd := 1000, solBalance := 1, multiplyPositions := [],
    blendedApy := 2, solPrice := 100 }

/-- Example lending opportunity at 10 percent APY, low risk. -/
def exOpportunity : YieldOpportunity :=
  { protocol := "kamino", pool := "usdc-main", type := .lending, token := "USDC",
    apy := 10, risk := .low }

/-- Example snapshot showing a 10 percent intraday loss against
`exSnapshot`. -/
def exSnapshotLoss : VaultSnapshot := { exSnapshot with totalValueUsd := 900 }

/-- Example open Multiply position whose net APY collapsed to 0.5 percent. -/
def exPosition : MultiplyPosition :=
  { collateralToken := "JitoSOL", netValueUsd := 500, leverage := 2, ltv := (3 / 10),
    netApy := (1 / 2) }

/-- Example snapshot with the collapsed position and a SOL balance below
the gas reserve. -/
def exSnapshotLowGas : VaultSnapshot :=
  { totalValueUsd := 1000, solBalance := (1 / 100), multiplyPositions := [exPosition],
    blendedApy := 2, solPrice := 100 }

/-- Example snapshot with the collapsed position, healthy gas and a zero
blended APY. -/
def exSnapshotZeroApy : VaultSnapshot :=
  { totalValueUsd := 1000, solBalance := 1, multiplyPositions := [exPosition],
    blendedApy := 0, solPrice := 100 }

/-- Example lending opportunity at 20 percent APY, low risk. -/
def exOpportunityHot : YieldOpportunity :=
  { protocol := "kamino", pool := "usdc-main", type := .lending, token := "USDC",
    apy := 20, risk := .low }

/-- Example configuration whose break-even horizon hits the boundary of
`calculateSwitchCost` exactly (219/2 days). -/
def exCfgBoundary : RiskConfig := { exCfg with maxBreakEvenDays := 219 / 2 }

/-- Example Risk Manager state with a tripped circuit breaker. -/
def exTrippedState : RiskState :=
  { dailyPnL := some { date := 0, startValueUsd := 1000, currentValueUsd := 900,
                       lossPct := 10 },
    circuitBreakerTripped := true,
    circuitBreakerReason := some { lossPct := 10, thresholdPct := 5 } }

/-- Example untripped Risk Manager state with nontrivial daily
bookkeeping (a small same-day loss below the threshold). -/
def exBookkeptState : RiskState :=
  { dailyPnL := some { date := 0, startValueUsd := 1010, currentValueUsd := 1010,
                       lossPct := 0 },
    circuitBreakerTripped := false,
    circuitBreakerReason := none }

/-- Example Orient-phase result with an active circuit breaker and a red
health status, recommending hold. -/
def exOrient : OrientResult :=
  { recommendation :=
      { bestStrategy := holdCandidate 2, alternatives := [], currentApy := 2,
        marketCondition := .calm },
    health := { status := .red, checks := [], circuitBreakerActive := true } }

-- ─── Theorems ───────────────────────────────────────────────────

/-- Helper: the tripped-breaker early return of `assessAction`. -/
theorem assessAction_breaker_early (today : Nat) (cfg : RiskConfig)
    (action : DecisionAction) (snap : VaultSnapshot) (p : ActionParams) (s : RiskState)
    (htrip : s.circuitBreakerTripped = true) (hact : action ≠ .hold) :
    assessAction today cfg action snap p s =
      ({ approved := false, riskScore := 100,
         reason := .blockedByBreaker s.circuitBreakerReason,
         warnings := [], blocks := [.breakerActive s.circuitBreakerReason] }, s) := by
  unfold assessAction
  rw [if_pos ⟨htrip, hact⟩]

/-- C2: when the circuit breaker is tripped and the assessed action is not
hold, `assessAction` returns immediately with approved false and risk
score exactly 100; no other gating rule is evaluated: the warnings list is
empty, the blocks list holds only the breaker message, and the Risk
Manager state (including the daily P&L record) is left untouched. -/
theorem claim_C2_breaker_early_return (today : Nat) (cfg : RiskConfig)
    (action : DecisionAction) (snap : VaultSnapshot) (p : ActionParams) (s : RiskState)
    (htrip : s.circuitBreakerTripped = true) (hact : action ≠ .hold) :
    assessAction today cfg action snap p s =
      ({ approved := false, riskScore := 100,
         reason := .blockedByBreaker s.circuitBreakerReason,
         warnings := [], blocks := [.breakerActive s.circuitBreakerReason] }, s) :=
  assessAction_breaker_early today cfg action snap p s htrip hact

/-- C2 witness: the early return evaluated on the concrete tripped state. -/
theorem claim_C2_breaker_early_return_witness :
    (assessAction 0 exCfg .depositKlend exSnapshot {} exTrippedState).1.approved = false ∧
    (assessAction 0 exCfg .depositKlend exSnapshot {} exTrippedState).1.riskScore = 100 ∧
    (assessAction 0 exCfg .depositKlend exSnapshot {} exTrippedState).2 = exTrippedState := by
  have h := claim_C2_breaker_early_return 0 exCfg .depositKlend exSnapshot {}
    exTrippedState rfl (by decide)
  rw [h]
  exact ⟨rfl, rfl, rfl⟩

/-- C5 counterexample: with a max break-even horizon of 219/2 days, the
inputs currentYield 0, targetYield 1, value 365, txCount 0 give break-even
days exactly equal to the horizon; the code (strict less-than) reports not
profitable while the claim (less-than-or-equal) predicts profitable, so
the claimed iff fails at this input. -/
theorem claim_C5_counterexample :
    ¬ ((calculateSwitchCost exCfgBoundary 0 1 365 0).profitable = true ↔
        ((calculateSwitchCost exCfgBoundary 0 1 365 0).breakEvenDays.leQ
            exCfgBoundary.maxBreakEvenDays = true ∧
          (1 : ℚ) - 0 > exCfgBoundary.minApyImprovementPct)) := by
  decide

/-- C5 amended: `calculateSwitchCost` returns total cost equal to the
per-transaction cost times the transaction count plus 0.3 percent of the
value, break-even days equal to total cost over daily improvement (with
daily improvement equal to the yield delta over 100 times the value over
365, and an infinite break-even when the improvement is not positive), and
profitable exactly when the break-even is strictly below the configured
max horizon and the yield delta exceeds the minimum-improvement
threshold. -/
theorem claim_C5_switch_cost (cfg : RiskConfig)
    (currentApy targetApy valueSol txCount : ℚ) :
    (calculateSwitchCost cfg currentApy targetApy valueSol txCount).costSol
        = txCount * (5 / 10000) + valueSol * (3 / 1000) ∧
    (calculateSwitchCost cfg currentApy targetApy valueSol txCount).breakEvenDays
        = (if 0 < (targetApy - currentApy) / 100 * valueSol / 365 then
            ERat.fin ((txCount * (5 / 10000) + valueSol * (3 / 1000))
              / ((targetApy - currentApy) / 100 * valueSol / 365))
           else ERat.inf) ∧
    ((calculateSwitchCost cfg currentApy targetApy valueSol txCount).profitable = true ↔
      ((calculateSwitchCost cfg currentApy targetApy valueSol txCount).breakEvenDays.ltQ
          cfg.maxBreakEvenDays = true ∧
        targetApy - currentApy > cfg.minApyImprovementPct)) := by
  refine ⟨rfl, rfl, ?_⟩
  simp only [calculateSwitchCost, decide_eq_true_eq]

/-- Helper: when the tripped-breaker early return does not fire, any block
raised by one of the stateless rules appears in the final blocks list and
forces approved to false. -/
theorem assessAction_block_of_pure (today : Nat) (cfg : RiskConfig)
    (action : DecisionAction) (snap : VaultSnapshot) (p : ActionParams) (s : RiskState)
    (hne : ¬ (s.circuitBreakerTripped = true ∧ action ≠ DecisionAction.hold))
    {b : RiskBlock} (hb : b ∈ (pureChecks cfg action snap p).2.1) :
    b ∈ (assessAction today cfg action snap p s).1.blocks ∧
    (assessAction today cfg action snap p s).1.approved = false := by
  unfold assessAction
  rw [if_neg hne]
  dsimp only
  split
  · exact ⟨List.mem_append_left _ hb, rfl⟩
  · refine ⟨hb, ?_⟩
    have : (pureChecks cfg action snap p).2.1 ≠ [] := List.ne_nil_of_mem hb
    simp [List.isEmpty_iff, this]

/-- Helper: a low SOL balance puts the gas-reserve block into the
stateless-rule blocks. -/
theorem pureChecks_gas_mem (cfg : RiskConfig) (action : DecisionAction)
    (snap : VaultSnapshot) (p : ActionParams)
    (hgas : snap.solBalance < cfg.gasReserveSol) :
    RiskBlock.gasReserve ∈ (pureChecks cfg action snap p).2.1 := by
  simp [pureChecks, gasCheck, hgas]

/-- C10: the Risk Gate applies the gas-reserve rule even to the hold
action: for every snapshot whose SOL balance is below the configured gas
reserve, assessing hold returns approved false with a gas-reserve block;
hold nevertheless survives the evaluation filter because the filter
exempts hold candidates from both the risk-ceiling and the approval test,
not because the Risk Gate approves it. -/
theorem claim_C10_hold_not_exempt (today : Nat) (cfg : RiskConfig)
    (snap : VaultSnapshot) (p : ActionParams) (s : RiskState)
    (hgas : snap.solBalance < cfg.gasReserveSol) :
    ((assessAction today cfg .hold snap p s).1.approved = false ∧
      RiskBlock.gasReserve ∈ (assessAction today cfg .hold snap p s).1.blocks) ∧
    (∀ maxRisk : ℚ, ∀ c : StrategyCandidate, c.action = .hold →
      keepCandidate maxRisk c = true) := by
  constructor
  · have h := assessAction_block_of_pure today cfg .hold snap p s
      (by simp) (pureChecks_gas_mem cfg .hold snap p hgas)
    exact ⟨h.2, h.1⟩
  · intro maxRisk c hc
    simp [keepCandidate, hc]

/-- C10 witness: the gas-starved snapshot makes even hold unapproved. -/
theorem claim_C10_hold_not_exempt_witness :
    (assessAction 0 exCfg .hold exSnapshotLowGas {} .initial).1.approved = false ∧
    RiskBlock.gasReserve ∈ (assessAction 0 exCfg .hold exSnapshotLowGas {} .initial).1.blocks ∧
    keepCandidate 50 (holdCandidate 2) = true := by
  have h := claim_C10_hold_not_exempt 0 exCfg exSnapshotLowGas {} .initial (by decide)
  exact ⟨h.1.1, h.1.2, h.2 50 (holdCandidate 2) rfl⟩

/-- C4: the Decide phase applies the override precedence in this exact
order with first match winning: active circuit breaker, red health
status, hold recommendation, unapproved risk verdict, dry run, act; and
in every case exactly one Decision record (the one in the result) is
constructed and handed to the decision logger. -/
theorem claim_C4_decide_precedence (dryRun : Bool) (o : OrientResult) :
    (decidePhase dryRun o).2 = [(decidePhase dryRun o).1.decision] ∧
    (decidePhase dryRun o).1.decision
        = createDecision o.recommendation.bestStrategy o.recommendation.currentApy
            o.recommendation.marketCondition ∧
    (o.health.circuitBreakerActive = true →
      (decidePhase dryRun o).1.shouldAct = false ∧
      (decidePhase dryRun o).1.reason = .breakerActiveHold) ∧
    (o.health.circuitBreakerActive = false → o.health.status = .red →
      (decidePhase dryRun o).1.shouldAct = false ∧
      (decidePhase dryRun o).1.reason = .healthRedHold) ∧
    (o.health.circuitBreakerActive = false → o.health.status ≠ .red →
      o.recommendation.bestStrategy.action = .hold →
      (decidePhase dryRun o).1.shouldAct = false ∧
      (decidePhase dryRun o).1.reason
        = .holdRecommended o.recommendation.bestStrategy.reasoning) ∧
    (∀ a : RiskAssessment, o.health.circuitBreakerActive = false →
      o.health.status ≠ .red → o.recommendation.bestStrategy.action ≠ .hold →
      o.recommendation.bestStrategy.riskAssessment = some a → a.approved = false →
      (decidePhase dryRun o).1.shouldAct = false ∧
      (decidePhase dryRun o).1.reason = .riskManagerBlocked a.reason) ∧
    (o.health.circuitBreakerActive = false → o.health.status ≠ .red →
      o.recommendation.bestStrategy.action ≠ .hold →
      (∀ a : RiskAssessment, o.recommendation.bestStrategy.riskAssessment = some a →
        a.approved = true) →
      dryRun = true →
      (decidePhase dryRun o).1.shouldAct = false ∧
      (decidePhase dryRun o).1.reason
        = .dryRunWouldExecute o.recommendation.bestStrategy.action) ∧
    (o.health.circuitBreakerActive = false → o.health.status ≠ .red →
      o.recommendation.bestStrategy.action ≠ .hold →
      (∀ a : RiskAssessment, o.recommendation.bestStrategy.riskAssessment = some a →
        a.approved = true) →
      dryRun = false →
      (decidePhase dryRun o).1.shouldAct = true ∧
      (decidePhase dryRun o).1.reason
        = .actRecommended o.recommendation.bestStrategy.reasoning) := by
  refine ⟨rfl, rfl, ?_, ?_, ?_, ?_, ?_, ?_⟩
  · intro hcb
    simp [decidePhase, hcb]
  · intro hcb hred
    simp [decidePhase, hcb, hred]
  · intro hcb hred hhold
    simp [decidePhase, hcb, hred, hhold]
  · intro a hcb hred hhold hra hnap
    simp [decidePhase, hcb, hred, hhold, hra, hnap]
  · intro hcb hred hhold happ hdry
    have hun : (match o.recommendation.bestStrategy.riskAssessment with
        | some a => !a.approved
        | none => false) = false := by
      cases hra : o.recommendation.bestStrategy.riskAssessment with
      | none => rfl
      | some a => simp [happ a hra]
    simp [decidePhase, hcb, hred, hhold, hun, hdry]
  · intro hcb hred hhold happ hdry
    have hun : (match o.recommendation.bestStrategy.riskAssessment with
        | some a => !a.approved
        | none => false) = false := by
      cases hra : o.recommendation.bestStrategy.riskAssessment with
      | none => rfl
      | some a => simp [happ a hra]
    simp [decidePhase, hcb, hred, hhold, hun, hdry]

/-- C4 witness: with an active breaker the Decide phase holds and still
logs exactly the decision record. -/
theorem claim_C4_decide_precedence_witness :
    (decidePhase true exOrient).1.shouldAct = false ∧
    (decidePhase true exOrient).1.reason = .breakerActiveHold ∧
    (decidePhase true exOrient).2 = [(decidePhase true exOrient).1.decision] := by
  have h := claim_C4_decide_precedence true exOrient
  exact ⟨(h.2.2.1 rfl).1, (h.2.2.1 rfl).2, h.1⟩

/-- Helper: strict monotonicity of the Multiply risk-score formula. -/
theorem multiplyRiskScore_strictMono {l1 l2 : ℚ} (h : l1 < l2) :
    multiplyRiskScore l1 < multiplyRiskScore l2 := by
  unfold multiplyRiskScore
  linarith

/-- C8: Multiply-entry generation draws candidates only from the first 5
opportunities of the list, which are the top 5 by spread whenever the list
is sorted by spread descending (as the scanner supplies it); every
produced candidate comes from an opportunity whose spread meets the
configured minimum, carries target leverage equal to the minimum of the
risk-tolerance preferred leverage and the configured max leverage,
projects net yield staking times leverage minus borrow cost times
(leverage - 1), and is scored 25 + 15 times (leverage - 1), which is
strictly increasing in the chosen leverage. -/
theorem claim_C8_multiply_generation (cfg : RiskConfig) (mcfg : MultiplyConfig)
    (tol : RiskTolerance) (currentApy pv : ℚ) (mopps : List MultiplyOpportunity) :
    multiplyCandidates cfg mcfg tol currentApy pv mopps
        = multiplyCandidates cfg mcfg tol currentApy pv (mopps.take 5) ∧
    (List.Sorted (fun a b => b.spread ≤ a.spread) mopps →
      ∀ x ∈ mopps.drop 5, ∀ y ∈ mopps.take 5, x.spread ≤ y.spread) ∧
    (∀ c ∈ multiplyCandidates cfg mcfg tol currentApy pv mopps,
      ∃ opp ∈ mopps.take 5,
        mcfg.minSpreadPct ≤ opp.spread ∧
        c.action = .openMultiply ∧
        c.params.leverage = some (min (riskWeights tol).leveragePref mcfg.maxLeverage) ∧
        c.params.targetApy = some
          (opp.stakingApy * min (riskWeights tol).leveragePref mcfg.maxLeverage
            - opp.borrowApy * (min (riskWeights tol).leveragePref mcfg.maxLeverage - 1)) ∧
        c.riskScore
          = multiplyRiskScore (min (riskWeights tol).leveragePref mcfg.maxLeverage)) ∧
    (∀ l1 l2 : ℚ, l1 < l2 → multiplyRiskScore l1 < multiplyRiskScore l2) := by
  refine ⟨?_, ?_, ?_, fun l1 l2 h => multiplyRiskScore_strictMono h⟩
  · unfold multiplyCandidates
    rw [List.take_take]
    norm_num
  · intro hs x hx y hy
    have := List.take_append_drop 5 mopps
    rw [← this] at hs
    exact (List.pairwise_append.mp hs).2.2 y hy x hx
  · intro c hc
    unfold multiplyCandidates at hc
    obtain ⟨opp, hmem, hf⟩ := List.mem_filterMap.mp hc
    refine ⟨opp, hmem, ?_⟩
    dsimp only at hf
    split at hf
    · exact absurd hf (by simp)
    · next hge =>
      split at hf
      · exact absurd hf (by simp)
      · injection hf with hf
        subst hf
        exact ⟨le_of_not_lt hge, rfl, rfl, rfl, rfl⟩

/-- C8 witness: the concrete claim parts at a one-opportunity list. -/
theorem claim_C8_multiply_generation_witness :
    (multiplyCandidates exCfg exMultiplyCfg .balanced 2 10 []
      = multiplyCandidates exCfg exMultiplyCfg .balanced 2 10 ([].take 5)) ∧
    multiplyRiskScore 1 < multiplyRiskScore 2 := by
  have h := claim_C8_multiply_generation exCfg exMultiplyCfg .balanced 2 10 []
  exact ⟨h.1, h.2.2.2 1 2 (by norm_num)⟩

/-- Helper: the square-root-free encoding agrees with the real
square-root comparison on nonnegative radicands. -/
theorem sqrtGtQ_iff (v t : ℚ) :
    sqrtGtQ v t = true ↔ ((t : ℝ) < Real.sqrt (v : ℝ)) := by
  unfold sqrtGtQ
  split
  · next h =>
    constructor
    · intro _
      have ht : ((t : ℝ) : ℝ) < 0 := by exact_mod_cast h
      exact lt_of_lt_of_le ht (Real.sqrt_nonneg _)
    · intro _
      rfl
  · next h =>
    have ht : (0 : ℝ) ≤ (t : ℝ) := by exact_mod_cast not_lt.mp h
    rw [Real.lt_sqrt ht]
    simp only [decide_eq_true_eq]
    constructor
    · intro hh
      exact_mod_cast hh
    · intro hh
      exact_mod_cast hh

/-- C9: the market-condition classifier returns uncertain when fewer than
3 opportunities exist; otherwise it is volatile exactly when the standard
deviation of the top-10 yields exceeds 0.5 times their mean or the mean
leveraged spread is below 1, uncertain exactly when neither holds and the
standard deviation exceeds 0.3 times the mean, and calm otherwise; for a
spread-sorted input the first 10 entries are the top 10 by yield. -/
theorem claim_C9_market_condition (opps : List YieldOpportunity)
    (mopps : List MultiplyOpportunity) :
    (opps.length < 3 → assessMarketCondition opps mopps = .uncertain) ∧
    (3 ≤ opps.length →
      ((assessMarketCondition opps mopps = .volatile) ↔
        (((top10Mean opps * (5 / 10) : ℚ) : ℝ) < Real.sqrt ((top10Variance opps : ℚ) : ℝ)
          ∨ avgSpread mopps < 1)) ∧
      ((assessMarketCondition opps mopps = .uncertain) ↔
        (¬ (((top10Mean opps * (5 / 10) : ℚ) : ℝ)
              < Real.sqrt ((top10Variance opps : ℚ) : ℝ) ∨ avgSpread mopps < 1) ∧
          ((top10Mean opps * (3 / 10) : ℚ) : ℝ)
            < Real.sqrt ((top10Variance opps : ℚ) : ℝ))) ∧
      ((assessMarketCondition opps mopps = .calm) ↔
        (¬ (((top10Mean opps * (5 / 10) : ℚ) : ℝ)
              < Real.sqrt ((top10Variance opps : ℚ) : ℝ) ∨ avgSpread mopps < 1) ∧
          ¬ ((top10Mean opps * (3 / 10) : ℚ) : ℝ)
              < Real.sqrt ((top10Variance opps : ℚ) : ℝ)))) ∧
    (List.Sorted (fun a b => b.apy ≤ a.apy) opps →
      ∀ x ∈ opps.drop 10, ∀ y ∈ opps.take 10, x.apy ≤ y.apy) := by
  refine ⟨?_, ?_, ?_⟩
  · intro h
    unfold assessMarketCondition
    rw [if_pos h]
  · intro h3
    have hlt : ¬ opps.length < 3 := not_lt.mpr h3
    have h05 := sqrtGtQ_iff (top10Variance opps) (top10Mean opps * (5 / 10))
    have h03 := sqrtGtQ_iff (top10Variance opps) (top10Mean opps * (3 / 10))
    unfold assessMarketCondition
    rw [if_neg hlt]
    by_cases hb : (sqrtGtQ (top10Variance opps) (top10Mean opps * (5 / 10))
        || decide (avgSpread mopps < 1)) = true
    · rw [if_pos hb]
      rw [Bool.or_eq_true] at hb
      have hbp : ((top10Mean opps * (5 / 10) : ℚ) : ℝ)
            < Real.sqrt ((top10Variance opps : ℚ) : ℝ) ∨ avgSpread mopps < 1 := by
        rcases hb with h | h
        · exact Or.inl (h05.mp h)
        · exact Or.inr (of_decide_eq_true h)
      exact ⟨iff_of_true rfl hbp, iff_of_false (by simp) fun h => h.1 hbp,
        iff_of_false (by simp) fun h => h.1 hbp⟩
    · rw [if_neg hb]
      rw [Bool.or_eq_true] at hb
      have hnor : ¬ (((top10Mean opps * (5 / 10) : ℚ) : ℝ)
            < Real.sqrt ((top10Variance opps : ℚ) : ℝ) ∨ avgSpread mopps < 1) := by
        rintro (h | h)
        · exact hb (Or.inl (h05.mpr h))
        · exact hb (Or.inr (decide_eq_true h))
      by_cases hc : sqrtGtQ (top10Variance opps) (top10Mean opps * (3 / 10)) = true
      · rw [if_pos hc]
        exact ⟨iff_of_false (by simp) hnor, iff_of_true rfl ⟨hnor, h03.mp hc⟩,
          iff_of_false (by simp) fun h => h.2 (h03.mp hc)⟩
      · rw [if_neg hc]
        have hc' : ¬ ((top10Mean opps * (3 / 10) : ℚ) : ℝ)
            < Real.sqrt ((top10Variance opps : ℚ) : ℝ) := fun h => hc (h03.mpr h)
        exact ⟨iff_of_false (by simp) hnor, iff_of_false (by simp) fun h => hc' h.2,
          iff_of_true rfl ⟨hnor, hc'⟩⟩
  · intro hs x hx y hy
    have := List.take_append_drop 10 opps
    rw [← this] at hs
    exact (List.pairwise_append.mp hs).2.2 y hy x hx

/-- C9 witness: three flat opportunities with no Multiply opportunities
classify as volatile through the compressed average spread. -/
theorem claim_C9_market_condition_witness :
    assessMarketCondition [exOpportunity, exOpportunity, exOpportunity] [] = .volatile := by
  have h := (claim_C9_market_condition [exOpportunity, exOpportunity, exOpportunity] []).2.1
    (by decide)
  exact h.1.mpr (Or.inr (by decide))

/-- Helper: hold candidates always pass the evaluation filter. -/
theorem keepCandidate_hold (maxRisk : ℚ) (c : StrategyCandidate) (hc : c.action = .hold) :
    keepCandidate maxRisk c = true := by
  simp [keepCandidate, hc]

/-- Helper: the assessment pass only attaches verdicts, so it preserves
every candidate count that ignores the attached verdict. -/
theorem assessAll_countP (today : Nat) (cfg : RiskConfig) (snap : VaultSnapshot)
    (p : StrategyCandidate → Bool)
    (hp : ∀ (c : StrategyCandidate) (a : RiskAssessment),
      p { c with riskAssessment := some a } = p c) :
    ∀ (l : List StrategyCandidate) (s : RiskState),
      ((assessAll today cfg snap l s).1).countP p = l.countP p := by
  intro l
  induction l with
  | nil => intro s; rfl
  | cons c cs ih =>
    intro s
    simp only [assessAll]
    rw [List.countP_cons, List.countP_cons, ih, hp]

/-- Helper: every output of the assessment pass is an input candidate with
some verdict attached. -/
theorem mem_assessAll (today : Nat) (cfg : RiskConfig) (snap : VaultSnapshot) :
    ∀ {l : List StrategyCandidate} {s : RiskState} {c : StrategyCandidate},
      c ∈ (assessAll today cfg snap l s).1 →
      ∃ c0 ∈ l, ∃ a : RiskAssessment, c = { c0 with riskAssessment := some a } := by
  intro l
  induction l with
  | nil =>
    intro s c h
    simp [assessAll] at h
  | cons d ds ih =>
    intro s c h
    simp only [assessAll, List.mem_cons] at h
    rcases h with h | h
    · exact ⟨d, List.mem_cons_self d ds, _, h⟩
    · obtain ⟨c0, hc0, a, ha⟩ := ih h
      exact ⟨c0, List.mem_cons_of_mem d hc0, a, ha⟩

/-- Helper: filtering does not change the count of a predicate when every
element satisfying the predicate is kept by the filter. -/
theorem countP_filter_of_imp {α : Type} (p q : α → Bool)
    (h : ∀ a, p a = true → q a = true) :
    ∀ l : List α, (l.filter q).countP p = l.countP p := by
  intro l
  induction l with
  | nil => rfl
  | cons a l ih =>
    cases hq : q a
    · have hp : p a = false := by
        cases hpa : p a
        · rfl
        · exact absurd (h a hpa) (by simp [hq])
      simp [List.filter_cons, hq, List.countP_cons, hp, ih]
    · simp [List.filter_cons, hq, List.countP_cons, ih]

/-- Helper: facts about every generated K-Lend candidate. -/
theorem mem_klendCandidates {cfg : RiskConfig} {currentApy pv : ℚ}
    {opps : List YieldOpportunity} {c : StrategyCandidate}
    (hc : c ∈ klendCandidates cfg currentApy pv opps) :
    c.action = .depositKlend ∧
    ∃ t : ℚ, c.params.targetApy = some t ∧ 0 < c.riskScore ∧
      c.sharpeScore = (t - currentApy) / (c.riskScore / 100) := by
  unfold klendCandidates at hc
  obtain ⟨opp, hmem, hf⟩ := List.mem_filterMap.mp hc
  dsimp only at hf
  split at hf
  · exact absurd hf (by simp)
  · injection hf with hf
    subst hf
    have hpos : (0 : ℚ) < lendingRiskScore opp.risk := by
      cases opp.risk <;> norm_num [lendingRiskScore]
    refine ⟨rfl, opp.apy, rfl, hpos, ?_⟩
    exact if_pos hpos

/-- Helper: facts about every generated Multiply-entry candidate. -/
theorem mem_multiplyCandidates {cfg : RiskConfig} {mcfg : MultiplyConfig}
    {tol : RiskTolerance} {currentApy pv : ℚ} {mopps : List MultiplyOpportunity}
    {c : StrategyCandidate}
    (hc : c ∈ multiplyCandidates cfg mcfg tol currentApy pv mopps) :
    c.action = .openMultiply ∧
    ∃ t : ℚ, c.params.targetApy = some t ∧
      (0 < c.riskScore → c.sharpeScore = (t - currentApy) / (c.riskScore / 100)) := by
  unfold multiplyCandidates at hc
  obtain ⟨opp, hmem, hf⟩ := List.mem_filterMap.mp hc
  dsimp only at hf
  split at hf
  · exact absurd hf (by simp)
  · split at hf
    · exact absurd hf (by simp)
    · injection hf with hf
      subst hf
      refine ⟨rfl, _, rfl, ?_⟩
      intro hpos
      exact if_pos hpos

/-- Helper: facts about every generated Multiply-exit candidate. -/
theorem mem_closeCandidates {currentApy : ℚ} {positions : List MultiplyPosition}
    {c : StrategyCandidate} (hc : c ∈ closeCandidates currentApy positions) :
    c.action = .closeMultiply ∧ c.riskScore = 5 ∧ c.sharpeScore = 50 := by
  unfold closeCandidates at hc
  obtain ⟨pos, hmem, hf⟩ := List.mem_filterMap.mp hc
  split at hf
  · injection hf with hf
    subst hf
    exact ⟨rfl, rfl, rfl⟩
  · exact absurd hf (by simp)

/-- Helper: case analysis over the four generation strategies. -/
theorem mem_generateCandidates {cfg : RiskConfig} {mcfg : MultiplyConfig}
    {tol : RiskTolerance} {snap : VaultSnapshot} {opps : List YieldOpportunity}
    {mopps : List MultiplyOpportunity} {c : StrategyCandidate}
    (hc : c ∈ generateCandidates cfg mcfg tol snap opps mopps) :
    c = holdCandidate snap.blendedApy ∨
    c ∈ klendCandidates cfg snap.blendedApy (snap.totalValueUsd / snap.solPrice) opps ∨
    c ∈ multiplyCandidates cfg mcfg tol snap.blendedApy
        (snap.totalValueUsd / snap.solPrice) mopps ∨
    c ∈ closeCandidates snap.blendedApy snap.multiplyPositions := by
  unfold generateCandidates at hc
  simpa [List.mem_cons, List.mem_append, or_assoc] using hc

/-- Helper: the generated candidate list holds exactly one hold entry. -/
theorem countP_hold_generateCandidates (cfg : RiskConfig) (mcfg : MultiplyConfig)
    (tol : RiskTolerance) (snap : VaultSnapshot) (opps : List YieldOpportunity)
    (mopps : List MultiplyOpportunity) :
    (generateCandidates cfg mcfg tol snap opps mopps).countP
        (fun c => c.action == .hold) = 1 := by
  unfold generateCandidates
  rw [List.countP_cons]
  have h0 : (klendCandidates cfg snap.blendedApy (snap.totalValueUsd / snap.solPrice) opps
      ++ multiplyCandidates cfg mcfg tol snap.blendedApy
          (snap.totalValueUsd / snap.solPrice) mopps
      ++ closeCandidates snap.blendedApy snap.multiplyPositions).countP
        (fun c => c.action == .hold) = 0 := by
    rw [List.countP_eq_zero]
    intro c hcm
    simp only [List.mem_append] at hcm
    rcases hcm with (h | h) | h
    · simp [(mem_klendCandidates h).1]
    · simp [(mem_multiplyCandidates h).1]
    · simp [(mem_closeCandidates h).1]
  rw [h0]
  simp [holdCandidate]

/-- Helper: the surviving candidate list of an evaluation is never empty,
because the hold candidate is generated first and always kept. -/
theorem evaluateValid_ne_nil (today : Nat) (cfg : RiskConfig) (mcfg : MultiplyConfig)
    (tol : RiskTolerance) (snap : VaultSnapshot) (opps : List YieldOpportunity)
    (mopps : List MultiplyOpportunity) (s : RiskState) :
    evaluateValid today cfg mcfg tol snap opps mopps s ≠ [] := by
  unfold evaluateValid evaluateAssessed generateCandidates
  simp only [assessAll]
  rw [List.filter_cons, if_pos (keepCandidate_hold _ _ rfl)]
  exact List.cons_ne_nil _ _

/-- Helper: the best strategy together with the alternatives is exactly the
ranked surviving candidate list. -/
theorem evaluate_listed (today : Nat) (cfg : RiskConfig) (mcfg : MultiplyConfig)
    (tol : RiskTolerance) (snap : VaultSnapshot) (opps : List YieldOpportunity)
    (mopps : List MultiplyOpportunity) (s : RiskState) :
    (evaluate today cfg mcfg tol snap opps mopps s).1.bestStrategy
        :: (evaluate today cfg mcfg tol snap opps mopps s).1.alternatives
      = rankCandidates (evaluateValid today cfg mcfg tol snap opps mopps s) := by
  have hne : rankCandidates (evaluateValid today cfg mcfg tol snap opps mopps s) ≠ [] := by
    intro h
    have hperm := List.perm_insertionSort
      (fun a b : StrategyCandidate => b.sharpeScore ≤ a.sharpeScore)
      (evaluateValid today cfg mcfg tol snap opps mopps s)
    unfold rankCandidates at h
    rw [h] at hperm
    exact evaluateValid_ne_nil today cfg mcfg tol snap opps mopps s hperm.nil_eq.symm
  obtain ⟨x, xs, hx⟩ := List.exists_cons_of_ne_nil hne
  unfold evaluate
  dsimp only
  rw [hx]
  simp

/-- C1: for every snapshot and opportunity lists, the candidate list
returned by evaluate (best strategy plus alternatives) holds exactly one
hold entry; every hold entry in it has risk score 0; the hold candidate is
generated first; the filter keeps hold candidates regardless of their risk
assessment; and when every surviving candidate is a hold the returned
recommendation is a hold. -/
theorem claim_C1_hold_always_present (today : Nat) (cfg : RiskConfig)
    (mcfg : MultiplyConfig) (tol : RiskTolerance) (snap : VaultSnapshot)
    (opps : List YieldOpportunity) (mopps : List MultiplyOpportunity) (s : RiskState) :
    ((evaluate today cfg mcfg tol snap opps mopps s).1.bestStrategy
        :: (evaluate today cfg mcfg tol snap opps mopps s).1.alternatives).countP
        (fun c => c.action == .hold) = 1 ∧
    (∀ c ∈ (evaluate today cfg mcfg tol snap opps mopps s).1.bestStrategy
        :: (evaluate today cfg mcfg tol snap opps mopps s).1.alternatives,
      c.action = .hold → c.riskScore = 0) ∧
    (generateCandidates cfg mcfg tol snap opps mopps).head?
        = some (holdCandidate snap.blendedApy) ∧
    (∀ maxRisk : ℚ, ∀ c : StrategyCandidate, c.action = .hold →
      keepCandidate maxRisk c = true) ∧
    ((∀ c ∈ evaluateValid today cfg mcfg tol snap opps mopps s, c.action = .hold) →
      (evaluate today cfg mcfg tol snap opps mopps s).1.bestStrategy.action = .hold) := by
  have hlist := evaluate_listed today cfg mcfg tol snap opps mopps s
  have hperm : List.Perm (rankCandidates (evaluateValid today cfg mcfg tol snap opps mopps s))
      (evaluateValid today cfg mcfg tol snap opps mopps s) := by
    unfold rankCandidates
    exact List.perm_insertionSort _ _
  refine ⟨?_, ?_, rfl, fun m c hc => keepCandidate_hold m c hc, ?_⟩
  · rw [hlist, List.Perm.countP_eq _ hperm]
    unfold evaluateValid
    rw [countP_filter_of_imp _ _ ?_]
    · unfold evaluateAssessed
      rw [assessAll_countP today cfg snap (fun c => c.action == .hold) (fun c a => rfl)]
      exact countP_hold_generateCandidates cfg mcfg tol snap opps mopps
    · intro c hc
      exact keepCandidate_hold _ c (by simpa using hc)
  · intro c hcmem hchold
    rw [hlist] at hcmem
    have hv : c ∈ evaluateValid today cfg mcfg tol snap opps mopps s :=
      hperm.mem_iff.mp hcmem
    have ha : c ∈ (evaluateAssessed today cfg mcfg tol snap opps mopps s).1 := by
      unfold evaluateValid at hv
      exact (List.mem_filter.mp hv).1
    obtain ⟨c0, hc0, a, rfl⟩ := mem_assessAll today cfg snap ha
    have hact : c0.action = .hold := hchold
    rcases mem_generateCandidates hc0 with h0 | h1 | h2 | h3
    · simp [h0, holdCandidate]
    · exact absurd (mem_klendCandidates h1).1 (by simp [hact])
    · exact absurd (mem_multiplyCandidates h2).1 (by simp [hact])
    · exact absurd (mem_closeCandidates h3).1 (by simp [hact])
  · intro hall
    have hb : (evaluate today cfg mcfg tol snap opps mopps s).1.bestStrategy
        ∈ rankCandidates (evaluateValid today cfg mcfg tol snap opps mopps s) := by
      rw [← hlist]
      exact List.mem_cons_self _ _
    exact hall _ (hperm.mem_iff.mp hb)

/-- C1 witness: the concrete gas-starved scenario, in which every non-hold
candidate is rejected, still recommends the hold candidate. -/
theorem claim_C1_hold_always_present_witness :
    ((evaluate 0 exCfg exMultiplyCfg .balanced exSnapshotLowGas [] [] .initial).1.bestStrategy
        :: (evaluate 0 exCfg exMultiplyCfg .balanced exSnapshotLowGas [] []
            .initial).1.alternatives).countP (fun c => c.action == .hold) = 1 ∧
    (evaluate 0 exCfg exMultiplyCfg .balanced exSnapshotLowGas [] []
        .initial).1.bestStrategy.action = .hold := by
  have h := claim_C1_hold_always_present 0 exCfg exMultiplyCfg .balanced
    exSnapshotLowGas [] [] .initial
  refine ⟨h.1, h.2.2.2.2 ?_⟩
  decide

/-- Helper: the risk-tolerance ceilings all lie above the fixed exit-candidate
risk score of 5. -/
theorem exit_below_ceiling (tol : RiskTolerance) :
    ¬ (5 : ℚ) > (riskWeights tol).maxRiskScore := by
  cases tol <;> norm_num [riskWeights]

/-- C6 counterexample: the claim fails on two counts. First, with the
collapsed position of `exSnapshotLowGas` (net APY 0.5 below 1 percent) the
SOL balance sits below the gas reserve, every non-hold candidate is
blocked by the Risk Gate, and no close-multiply candidate appears in the
ranked output. Second, in `exSnapshotZeroApy` a K-Lend candidate with
risk score 10 (positive) and yield delta 20 (below 25) carries
risk-adjusted score 200, so the exit candidate score of 50 does not
exceed it. -/
theorem claim_C6_counterexample :
    (exPosition ∈ exSnapshotLowGas.multiplyPositions ∧ exPosition.netApy < 1 ∧
      (∀ c ∈ (evaluate 0 exCfg exMultiplyCfg .balanced exSnapshotLowGas [] []
            .initial).1.bestStrategy
          :: (evaluate 0 exCfg exMultiplyCfg .balanced exSnapshotLowGas [] []
            .initial).1.alternatives, c.action ≠ .closeMultiply)) ∧
    (exSnapshotZeroApy.blendedApy = 0 ∧
      (∃ c ∈ (evaluate 0 exCfg exMultiplyCfg .balanced exSnapshotZeroApy
            [exOpportunityHot] [] .initial).1.bestStrategy
          :: (evaluate 0 exCfg exMultiplyCfg .balanced exSnapshotZeroApy
            [exOpportunityHot] [] .initial).1.alternatives,
        c.action = .depositKlend ∧ c.riskScore = 10 ∧ (0:ℚ) < c.riskScore ∧
        c.params.targetApy = some 20 ∧ (20:ℚ) - 0 < 25 ∧ (50:ℚ) < c.sharpeScore) ∧
      (∃ c ∈ (evaluate 0 exCfg exMultiplyCfg .balanced exSnapshotZeroApy
            [exOpportunityHot] [] .initial).1.bestStrategy
          :: (evaluate 0 exCfg exMultiplyCfg .balanced exSnapshotZeroApy
            [exOpportunityHot] [] .initial).1.alternatives,
        c.action = .closeMultiply ∧ c.sharpeScore = 50)) := by
  decide

/-- C6 amended: for every open leveraged position with net yield below 1
percent an exit candidate with risk score 5 and risk-adjusted score 50 is
generated; an assessed exit candidate is present in the ranked output
whenever its risk verdict approves it (its fixed score 5 never exceeds any
tolerance ceiling); and its score of 50 exceeds the risk-adjusted score of
every simple-deposit or leveraged-entry candidate in the output whose
yield delta is below half its own risk score. -/
theorem claim_C6_exit_priority (today : Nat) (cfg : RiskConfig) (mcfg : MultiplyConfig)
    (tol : RiskTolerance) (snap : VaultSnapshot) (opps : List YieldOpportunity)
    (mopps : List MultiplyOpportunity) (s : RiskState) :
    (∀ pos ∈ snap.multiplyPositions, pos.netApy < 1 →
      ∃ c ∈ generateCandidates cfg mcfg tol snap opps mopps,
        c.action = .closeMultiply ∧ c.id = .closeMultiply pos.collateralToken ∧
        c.riskScore = 5 ∧ c.sharpeScore = 50) ∧
    (∀ c ∈ (evaluateAssessed today cfg mcfg tol snap opps mopps s).1,
      c.action = .closeMultiply →
      (∀ a : RiskAssessment, c.riskAssessment = some a → a.approved = true) →
      c ∈ (evaluate today cfg mcfg tol snap opps mopps s).1.bestStrategy
        :: (evaluate today cfg mcfg tol snap opps mopps s).1.alternatives) ∧
    (∀ c ∈ (evaluate today cfg mcfg tol snap opps mopps s).1.bestStrategy
        :: (evaluate today cfg mcfg tol snap opps mopps s).1.alternatives,
      (c.action = .depositKlend ∨ c.action = .openMultiply) →
      ∀ t : ℚ, c.params.targetApy = some t →
      0 < c.riskScore → (t - snap.blendedApy) * 2 < c.riskScore →
      c.sharpeScore < 50) := by
  have hlist := evaluate_listed today cfg mcfg tol snap opps mopps s
  have hperm : List.Perm (rankCandidates (evaluateValid today cfg mcfg tol snap opps mopps s))
      (evaluateValid today cfg mcfg tol snap opps mopps s) := by
    unfold rankCandidates
    exact List.perm_insertionSort _ _
  refine ⟨?_, ?_, ?_⟩
  · intro pos hpos hlow
    have hgen : ({ id := .closeMultiply pos.collateralToken, action := .closeMultiply,
                   netApy := snap.blendedApy, riskScore := 5, sharpeScore := 50,
                   breakEvenDays := .fin 0,
                   reasoning := .closeCollapsed pos.collateralToken pos.netApy,
                   params := {}, riskAssessment := none } : StrategyCandidate)
        ∈ generateCandidates cfg mcfg tol snap opps mopps := by
      unfold generateCandidates
      refine List.mem_cons_of_mem _ (List.mem_append_right _ ?_)
      unfold closeCandidates
      exact List.mem_filterMap.mpr ⟨pos, hpos, by rw [if_pos hlow]⟩
    exact ⟨_, hgen, rfl, rfl, rfl, rfl⟩
  · intro c hca hact happ
    obtain ⟨c0, hc0, a, rfl⟩ := mem_assessAll today cfg snap hca
    have hact0 : c0.action = .closeMultiply := hact
    have hrisk : c0.riskScore = 5 := by
      rcases mem_generateCandidates hc0 with h0 | h1 | h2 | h3
      · rw [h0] at hact0
        exact absurd hact0 (by simp [holdCandidate])
      · exact absurd (mem_klendCandidates h1).1 (by simp [hact0])
      · exact absurd (mem_multiplyCandidates h2).1 (by simp [hact0])
      · exact (mem_closeCandidates h3).2.1
    have hkeep : keepCandidate (riskWeights tol).maxRiskScore
        { c0 with riskAssessment := some a } = true := by
      unfold keepCandidate
      have h1 : ¬ (({ c0 with riskAssessment := some a } : StrategyCandidate).riskScore
          > (riskWeights tol).maxRiskScore ∧
          ({ c0 with riskAssessment := some a } : StrategyCandidate).action ≠ .hold) := by
        rintro ⟨hgt, _⟩
        have : c0.riskScore > (riskWeights tol).maxRiskScore := hgt
        rw [hrisk] at this
        exact exit_below_ceiling tol this
      rw [if_neg h1]
      have h2 : (a.approved = true) := happ a rfl
      simp [h2]
    rw [hlist]
    apply hperm.mem_iff.mpr
    unfold evaluateValid
    exact List.mem_filter.mpr ⟨hca, hkeep⟩
  · intro c hcmem hdep t ht hpos hdelta
    rw [hlist] at hcmem
    have hv := hperm.mem_iff.mp hcmem
    have hca : c ∈ (evaluateAssessed today cfg mcfg tol snap opps mopps s).1 := by
      unfold evaluateValid at hv
      exact (List.mem_filter.mp hv).1
    obtain ⟨c0, hc0, a, rfl⟩ := mem_assessAll today cfg snap hca
    have hdep0 : c0.action = .depositKlend ∨ c0.action = .openMultiply := hdep
    have ht0 : c0.params.targetApy = some t := ht
    have hpos0 : (0:ℚ) < c0.riskScore := hpos
    have hdelta0 : (t - snap.blendedApy) * 2 < c0.riskScore := hdelta
    show c0.sharpeScore < 50
    have hs : c0.sharpeScore = (t - snap.blendedApy) / (c0.riskScore / 100) := by
      rcases mem_generateCandidates hc0 with h0 | h1 | h2 | h3
      · rcases hdep0 with h | h <;> rw [h0] at h <;>
          exact absurd h (by simp [holdCandidate])
      · obtain ⟨-, t1, ht1, -, hs1⟩ := mem_klendCandidates h1
        have hte : t1 = t := Option.some.inj (ht1.symm.trans ht0)
        rw [hs1, hte]
      · obtain ⟨-, t1, ht1, hs1⟩ := mem_multiplyCandidates h2
        have hte : t1 = t := Option.some.inj (ht1.symm.trans ht0)
        rw [hs1 hpos0, hte]
      · rcases hdep0 with h | h <;> rw [(mem_closeCandidates h3).1] at h <;> simp at h
    rw [hs]
    have h100 : (0:ℚ) < c0.riskScore / 100 := by positivity
    rw [div_lt_iff₀ h100]
    linarith

/-- C6 witness: the collapsed example position yields a generated exit
candidate with risk score 5 and risk-adjusted score 50. -/
theorem claim_C6_exit_priority_witness :
    ∃ c ∈ generateCandidates exCfg exMultiplyCfg .balanced exSnapshotZeroApy
        [exOpportunityHot] [],
      c.action = .closeMultiply ∧ c.id = .closeMultiply "JitoSOL" ∧
      c.riskScore = 5 ∧ c.sharpeScore = 50 := by
  have h := (claim_C6_exit_priority 0 exCfg exMultiplyCfg .balanced exSnapshotZeroApy
    [exOpportunityHot] [] .initial).1 exPosition (by decide) (by decide)
  exact h

/-- Helper: tripping always leaves the breaker tripped. -/
theorem tripCircuitBreaker_tripped (r : BreakerReason) (st : RiskState) :
    (tripCircuitBreaker r st).circuitBreakerTripped = true := by
  unfold tripCircuitBreaker
  split
  · next h => exact h
  · rfl

/-- Helper: tripping an already tripped breaker is a no-op. -/
theorem tripCircuitBreaker_of_tripped (r : BreakerReason) (st : RiskState)
    (h : st.circuitBreakerTripped = true) : tripCircuitBreaker r st = st := by
  unfold tripCircuitBreaker
  rw [if_pos h]

/-- Helper: observing a new day key resets the daily record to the current
value and clears the breaker. -/
theorem updateDailyPnL_newDay (today : Nat) (snap : VaultSnapshot) (s : RiskState)
    (h : ∀ pnl0, s.dailyPnL = some pnl0 → pnl0.date ≠ today) :
    updateDailyPnL today snap s =
      { dailyPnL := some { date := today, startValueUsd := snap.totalValueUsd,
                           currentValueUsd := snap.totalValueUsd, lossPct := 0 },
        circuitBreakerTripped := false,
        circuitBreakerReason :=
          if s.circuitBreakerTripped then none else s.circuitBreakerReason } := by
  unfold updateDailyPnL
  cases hd : s.dailyPnL with
  | none => rfl
  | some p =>
    dsimp only
    rw [if_neg (h p hd)]

/-- Helper: a same-day update only refreshes the current value and loss
percentage of the daily record. -/
theorem updateDailyPnL_sameDay (today : Nat) (snap : VaultSnapshot) (s : RiskState)
    (pnl0 : DailyPnL) (hd : s.dailyPnL = some pnl0) (hdate : pnl0.date = today) :
    updateDailyPnL today snap s =
      { s with
        dailyPnL :=
          some { pnl0 with
                 currentValueUsd := snap.totalValueUsd,
                 lossPct :=
                   if 0 < pnl0.startValueUsd then
                     -((snap.totalValueUsd - pnl0.startValueUsd) / pnl0.startValueUsd) * 100
                   else 0 } } := by
  unfold updateDailyPnL
  rw [hd]
  dsimp only
  rw [if_pos hdate]

/-- C3: the daily-loss circuit breaker. Tripping is idempotent and fires
exactly when the freshly updated loss percentage exceeds the threshold,
forcing risk score 100 and a block; once tripped it blocks every
subsequent non-hold assessment without touching the state, and any
same-day call leaves it tripped; the first assessAction that observes a
new day key (a hold assessment or one with an untripped breaker) and the
first getHealthStatus on a new day reset the breaker and restart the daily
record at the current snapshot value. -/
theorem claim_C3_daily_breaker (today : Nat) (cfg : RiskConfig)
    (action : DecisionAction) (snap : VaultSnapshot) (p : ActionParams) (s : RiskState) :
    (∀ pnl, (updateDailyPnL today snap s).dailyPnL = some pnl →
      pnl.lossPct > cfg.dailyLossCircuitBreakerPct →
      (action = .hold ∨ s.circuitBreakerTripped = false) →
      ((assessAction today cfg action snap p s).2.circuitBreakerTripped = true ∧
       (assessAction today cfg action snap p s).1.approved = false ∧
       (assessAction today cfg action snap p s).1.riskScore = 100)) ∧
    (∀ (r : BreakerReason) (s2 : RiskState), s2.circuitBreakerTripped = true →
      tripCircuitBreaker r s2 = s2) ∧
    (s.circuitBreakerTripped = true → action ≠ .hold →
      ((assessAction today cfg action snap p s).1.approved = false ∧
       (assessAction today cfg action snap p s).1.riskScore = 100 ∧
       (assessAction today cfg action snap p s).2 = s)) ∧
    (s.circuitBreakerTripped = true →
      ∀ pnl0, s.dailyPnL = some pnl0 → pnl0.date = today →
      (assessAction today cfg action snap p s).2.circuitBreakerTripped = true) ∧
    ((action = .hold ∨ s.circuitBreakerTripped = false) →
      (∀ pnl0, s.dailyPnL = some pnl0 → pnl0.date ≠ today) →
      0 ≤ cfg.dailyLossCircuitBreakerPct →
      ((assessAction today cfg action snap p s).2.circuitBreakerTripped = false ∧
       (assessAction today cfg action snap p s).2.dailyPnL =
         some { date := today, startValueUsd := snap.totalValueUsd,
                currentValueUsd := snap.totalValueUsd, lossPct := 0 })) ∧
    ((∀ pnl0, s.dailyPnL = some pnl0 → pnl0.date ≠ today) →
      ((getHealthStatus today cfg snap s).2.circuitBreakerTripped = false ∧
       (getHealthStatus today cfg snap s).2.dailyPnL =
         some { date := today, startValueUsd := snap.totalValueUsd,
                currentValueUsd := snap.totalValueUsd, lossPct := 0 })) := by
  refine ⟨?_, fun r s2 h => tripCircuitBreaker_of_tripped r s2 h, ?_, ?_, ?_, ?_⟩
  · intro pnl hpnl hloss hcase
    have hne : ¬ (s.circuitBreakerTripped = true ∧ action ≠ DecisionAction.hold) := by
      rcases hcase with h | h
      · rintro ⟨-, hh⟩
        exact hh h
      · rintro ⟨hh, -⟩
        rw [h] at hh
        cases hh
    unfold assessAction
    rw [if_neg hne]
    dsimp only
    rw [hpnl]
    dsimp only
    rw [if_pos (decide_eq_true hloss)]
    refine ⟨tripCircuitBreaker_tripped _ _, rfl, ?_⟩
    norm_num
  · intro htrip hact
    rw [assessAction_breaker_early today cfg action snap p s htrip hact]
    exact ⟨rfl, rfl, rfl⟩
  · intro htrip pnl0 hd hdate
    have h1 : (updateDailyPnL today snap s).circuitBreakerTripped = true := by
      rw [updateDailyPnL_sameDay today snap s pnl0 hd hdate]
      exact htrip
    by_cases hact : action = DecisionAction.hold
    · have hne : ¬ (s.circuitBreakerTripped = true ∧ action ≠ DecisionAction.hold) := by
        rintro ⟨-, hh⟩
        exact hh hact
      unfold assessAction
      rw [if_neg hne]
      dsimp only
      split
      · exact tripCircuitBreaker_tripped _ _
      · exact h1
    · rw [assessAction_breaker_early today cfg action snap p s htrip hact]
      exact htrip
  · intro hcase hnew hth
    have hne : ¬ (s.circuitBreakerTripped = true ∧ action ≠ DecisionAction.hold) := by
      rcases hcase with h | h
      · rintro ⟨-, hh⟩
        exact hh h
      · rintro ⟨hh, -⟩
        rw [h] at hh
        cases hh
    unfold assessAction
    rw [if_neg hne]
    dsimp only
    rw [updateDailyPnL_newDay today snap s hnew]
    dsimp only
    rw [if_neg ?_]
    · exact ⟨rfl, rfl⟩
    · simp only [decide_eq_true_eq, not_lt]
      exact hth
  · intro hnew
    unfold getHealthStatus
    dsimp only
    rw [updateDailyPnL_newDay today snap s hnew]
    exact ⟨rfl, rfl⟩

/-- C3 witness: a 10 percent intraday loss against the 5 percent threshold
trips the breaker, blocks, and the breaker clears on the next day. -/
theorem claim_C3_daily_breaker_witness :
    ((assessAction 0 exCfg .depositKlend exSnapshotLoss {}
        { dailyPnL := some { date := 0, startValueUsd := 1000, currentValueUsd := 1000,
                             lossPct := 0 },
          circuitBreakerTripped := false,
          circuitBreakerReason := none }).2.circuitBreakerTripped = true ∧
     (assessAction 0 exCfg .depositKlend exSnapshotLoss {}
        { dailyPnL := some { date := 0, startValueUsd := 1000, currentValueUsd := 1000,
                             lossPct := 0 },
          circuitBreakerTripped := false,
          circuitBreakerReason := none }).1.approved = false) ∧
    (getHealthStatus 1 exCfg exSnapshot exTrippedState).2.circuitBreakerTripped = false := by
  constructor
  · have h := (claim_C3_daily_breaker 0 exCfg .depositKlend exSnapshotLoss {}
      { dailyPnL := some { date := 0, startValueUsd := 1000, currentValueUsd := 1000,
                           lossPct := 0 },
        circuitBreakerTripped := false, circuitBreakerReason := none }).1
      { date := 0, startValueUsd := 1000, currentValueUsd := 900, lossPct := 10 }
      (by decide) (by decide) (Or.inr rfl)
    exact ⟨h.1, h.2.1⟩
  · have h := (claim_C3_daily_breaker 1 exCfg .hold exSnapshot {}
      exTrippedState).2.2.2.2.2 (by decide)
    exact h.1

/-- Helper: tripping never touches the daily record. -/
theorem tripCircuitBreaker_dailyPnL (r : BreakerReason) (st : RiskState) :
    (tripCircuitBreaker r st).dailyPnL = st.dailyPnL := by
  unfold tripCircuitBreaker
  split <;> rfl

/-- Helper: the daily update always leaves a record dated today. -/
theorem updateDailyPnL_date (today : Nat) (snap : VaultSnapshot) (s : RiskState) :
    ∃ pnl, (updateDailyPnL today snap s).dailyPnL = some pnl ∧ pnl.date = today := by
  unfold updateDailyPnL
  cases hd : s.dailyPnL with
  | none => exact ⟨_, rfl, rfl⟩
  | some p =>
    dsimp only
    by_cases hdate : p.date = today
    · rw [if_pos hdate]
      exact ⟨_, rfl, hdate⟩
    · rw [if_neg hdate]
      exact ⟨_, rfl, rfl⟩

/-- Helper: an assessment that starts untripped leaves a daily record
dated today. -/
theorem assessAction_result_date (today : Nat) (cfg : RiskConfig)
    (action : DecisionAction) (snap : VaultSnapshot) (p : ActionParams) (s : RiskState)
    (h : s.circuitBreakerTripped = false) :
    ∃ pnl, (assessAction today cfg action snap p s).2.dailyPnL = some pnl ∧
      pnl.date = today := by
  have hne : ¬ (s.circuitBreakerTripped = true ∧ action ≠ DecisionAction.hold) := by
    simp [h]
  unfold assessAction
  rw [if_neg hne]
  dsimp only
  split
  · rw [tripCircuitBreaker_dailyPnL]
    exact updateDailyPnL_date today snap s
  · exact updateDailyPnL_date today snap s

/-- Helper: a tripped breaker with a same-day record stays tripped through
any assessment of the same day, and the record stays dated today. -/
theorem assessAction_trip_invariant (today : Nat) (cfg : RiskConfig)
    (action : DecisionAction) (snap : VaultSnapshot) (p : ActionParams) (s : RiskState)
    (h : s.circuitBreakerTripped = true)
    (hd : ∃ pnl, s.dailyPnL = some pnl ∧ pnl.date = today) :
    (assessAction today cfg action snap p s).2.circuitBreakerTripped = true ∧
    ∃ pnl, (assessAction today cfg action snap p s).2.dailyPnL = some pnl ∧
      pnl.date = today := by
  by_cases hact : action = DecisionAction.hold
  · obtain ⟨pnl0, hd0, hdate⟩ := hd
    have hne : ¬ (s.circuitBreakerTripped = true ∧ action ≠ DecisionAction.hold) := by
      simp [hact]
    have h1 : (updateDailyPnL today snap s).circuitBreakerTripped = true := by
      rw [updateDailyPnL_sameDay today snap s pnl0 hd0 hdate]
      exact h
    unfold assessAction
    rw [if_neg hne]
    dsimp only
    constructor
    · split
      · exact tripCircuitBreaker_tripped _ _
      · exact h1
    · split
      · rw [tripCircuitBreaker_dailyPnL]
        exact updateDailyPnL_date today snap s
      · exact updateDailyPnL_date today snap s
  · rw [assessAction_breaker_early today cfg action snap p s h hact]
    exact ⟨h, hd⟩

/-- Helper: an assessment that starts untripped and ends untripped returns
the verdict of the stateless rules alone, and its only state effect is the
daily bookkeeping update. -/
theorem assessAction_untripped_pure (today : Nat) (cfg : RiskConfig)
    (action : DecisionAction) (snap : VaultSnapshot) (p : ActionParams) (s : RiskState)
    (h : s.circuitBreakerTripped = false)
    (hres : (assessAction today cfg action snap p s).2.circuitBreakerTripped = false) :
    assessAction today cfg action snap p s =
      ({ approved := (pureChecks cfg action snap p).2.1.isEmpty,
         riskScore := min 100 (pureChecks cfg action snap p).2.2,
         reason :=
           if (pureChecks cfg action snap p).2.1.isEmpty then
             if (pureChecks cfg action snap p).1.isEmpty then AssessReason.approvedClean
             else AssessReason.approvedWithWarnings (pureChecks cfg action snap p).1
           else AssessReason.blocked (pureChecks cfg action snap p).2.1,
         warnings := (pureChecks cfg action snap p).1,
         blocks := (pureChecks cfg action snap p).2.1 },
       updateDailyPnL today snap s) := by
  have hne : ¬ (s.circuitBreakerTripped = true ∧ action ≠ DecisionAction.hold) := by
    simp [h]
  unfold assessAction at hres ⊢
  rw [if_neg hne] at hres ⊢
  dsimp only at hres ⊢
  split at hres
  · exfalso
    rw [tripCircuitBreaker_tripped] at hres
    cases hres
  · next hcond =>
    rw [if_neg hcond]

/-- Helper: once tripped with a same-day record, the whole assessment pass
stays tripped. -/
theorem assessAll_tripped_persists (today : Nat) (cfg : RiskConfig)
    (snap : VaultSnapshot) :
    ∀ (l : List StrategyCandidate) (s : RiskState),
      s.circuitBreakerTripped = true →
      (∃ pnl, s.dailyPnL = some pnl ∧ pnl.date = today) →
      (assessAll today cfg snap l s).2.circuitBreakerTripped = true := by
  intro l
  induction l with
  | nil =>
    intro s h _
    exact h
  | cons c cs ih =>
    intro s h hd
    have hstep := assessAction_trip_invariant today cfg c.action snap c.params s h hd
    simp only [assessAll]
    exact ih _ hstep.1 hstep.2

/-- Helper: an assessment pass that starts and ends untripped produces the
same assessed candidates regardless of the daily bookkeeping it starts
from. -/
theorem assessAll_untripped_eq (today : Nat) (cfg : RiskConfig) (snap : VaultSnapshot) :
    ∀ (l : List StrategyCandidate) (s s2 : RiskState),
      s.circuitBreakerTripped = false → s2.circuitBreakerTripped = false →
      (assessAll today cfg snap l s).2.circuitBreakerTripped = false →
      (assessAll today cfg snap l s2).2.circuitBreakerTripped = false →
      (assessAll today cfg snap l s).1 = (assessAll today cfg snap l s2).1 := by
  intro l
  induction l with
  | nil =>
    intro s s2 _ _ _ _
    rfl
  | cons c cs ih =>
    intro s s2 hs hs2 hfin hfin2
    simp only [assessAll] at hfin hfin2 ⊢
    have hstep : (assessAction today cfg c.action snap c.params s).2.circuitBreakerTripped
        = false := by
      cases hb : (assessAction today cfg c.action snap c.params s).2.circuitBreakerTripped
      · rfl
      · exfalso
        have hd := assessAction_result_date today cfg c.action snap c.params s hs
        have hper := assessAll_tripped_persists today cfg snap cs _ hb hd
        rw [hfin] at hper
        cases hper
    have hstep2 : (assessAction today cfg c.action snap c.params s2).2.circuitBreakerTripped
        = false := by
      cases hb : (assessAction today cfg c.action snap c.params s2).2.circuitBreakerTripped
      · rfl
      · exfalso
        have hd := assessAction_result_date today cfg c.action snap c.params s2 hs2
        have hper := assessAll_tripped_persists today cfg snap cs _ hb hd
        rw [hfin2] at hper
        cases hper
    have hass : (assessAction today cfg c.action snap c.params s).1
        = (assessAction today cfg c.action snap c.params s2).1 := by
      rw [assessAction_untripped_pure today cfg c.action snap c.params s hs hstep,
        assessAction_untripped_pure today cfg c.action snap c.params s2 hs2 hstep2]
    have hrec := ih (assessAction today cfg c.action snap c.params s).2
      (assessAction today cfg c.action snap c.params s2).2 hstep hstep2 hfin hfin2
    rw [hass, hrec]

/-- C7 counterexample: two evaluations with identical snapshot and
opportunity inputs return different recommendations when a Risk Gate call
between them (an assessment against a loss-making snapshot) trips the
circuit breaker: the first recommends the K-Lend deposit, the second falls
back to hold. -/
theorem claim_C7_counterexample :
    ((evaluate 0 exCfg exMultiplyCfg .balanced exSnapshot [exOpportunity] []
        .initial).1.bestStrategy.id = .klend "USDC") ∧
    ((evaluate 0 exCfg exMultiplyCfg .balanced exSnapshot [exOpportunity] []
        (assessAction 0 exCfg .depositKlend exSnapshotLoss {}
          (evaluate 0 exCfg exMultiplyCfg .balanced exSnapshot [exOpportunity] []
            .initial).2).2).1.bestStrategy.id = .hold) ∧
    (evaluate 0 exCfg exMultiplyCfg .balanced exSnapshot [exOpportunity] [] .initial).1
      ≠ (evaluate 0 exCfg exMultiplyCfg .balanced exSnapshot [exOpportunity] []
          (assessAction 0 exCfg .depositKlend exSnapshotLoss {}
            (evaluate 0 exCfg exMultiplyCfg .balanced exSnapshot [exOpportunity] []
              .initial).2).2).1 := by
  decide

/-- C7 amended: the Strategy Evaluator carries no hidden state of its own;
its result depends on mutable state only through the Risk Gate (circuit
breaker and daily P&L). Whenever the breaker is untripped before a call
and the call does not trip it, the recommendation is independent of the
daily bookkeeping, so two identical calls agree as long as the
intermediate calls leave the breaker untripped; a Risk Gate call that
trips the breaker can change the result of a later identical evaluation. -/
theorem claim_C7_evaluate_stateless (today : Nat) (cfg : RiskConfig)
    (mcfg : MultiplyConfig) (tol : RiskTolerance) (snap : VaultSnapshot)
    (opps : List YieldOpportunity) (mopps : List MultiplyOpportunity)
    (s s2 : RiskState)
    (h1 : s.circuitBreakerTripped = false)
    (h2 : s2.circuitBreakerTripped = false)
    (h3 : (evaluate today cfg mcfg tol snap opps mopps s).2.circuitBreakerTripped = false)
    (h4 : (evaluate today cfg mcfg tol snap opps mopps s2).2.circuitBreakerTripped = false) :
    (evaluate today cfg mcfg tol snap opps mopps s).1
      = (evaluate today cfg mcfg tol snap opps mopps s2).1 := by
  have h3a : (evaluateAssessed today cfg mcfg tol snap opps mopps s).2.circuitBreakerTripped
      = false := h3
  have h4a : (evaluateAssessed today cfg mcfg tol snap opps mopps s2).2.circuitBreakerTripped
      = false := h4
  have he : (evaluateAssessed today cfg mcfg tol snap opps mopps s).1
      = (evaluateAssessed today cfg mcfg tol snap opps mopps s2).1 := by
    unfold evaluateAssessed at h3a h4a ⊢
    exact assessAll_untripped_eq today cfg snap _ s s2 h1 h2 h3a h4a
  unfold evaluate evaluateValid
  dsimp only
  rw [he]

/-- C7 witness: two different untripped bookkeeping states produce the same
recommendation on the example snapshot. -/
theorem claim_C7_evaluate_stateless_witness :
    exBookkeptState ≠ RiskState.initial ∧
    (evaluate 0 exCfg exMultiplyCfg .balanced exSnapshot [exOpportunity] [] .initial).1
      = (evaluate 0 exCfg exMultiplyCfg .balanced exSnapshot [exOpportunity] []
          exBookkeptState).1 := by
  refine ⟨by decide, ?_⟩
  exact claim_C7_evaluate_stateless 0 exCfg exMultiplyCfg .balanced exSnapshot
    [exOpportunity] [] RiskState.initial exBookkeptState rfl rfl (by decide) (by decide)

end PrometheusVault
